import Mathlib

/-!
# wmbusmeters: start-up, daemonisation and the oneshot check

A shallow embedding of `src/main.cc` (with the meter catalog of `src/meters.h`).

The program is sequential glue around calls into the operating system and into
code that lives in other translation units.  Each function of `main.cc` is
embedded as a function that returns a `Run`: the list of calls it made, in
order (`Event`), the vector of runtime meters it built, and how it ended
(returned to its caller, or ended the process through `exit`).  Everything the
code only consults (the result of `fork`, of `fopen`, of `detectMBusDevice`,
of `calculateLinkModes`, ...) is a field of `Env`.
-/

namespace Wmbusmeters

/-! ## meters.h -/

/-- The enum `MeterType` (meters.h:43-48): one tag per row of `LIST_OF_METERS`,
in row order, then `UNKNOWN`. -/
inductive MeterType
  | AMIPLUS | APATOR162 | EURISII | FLOWIQ3100 | IPERL | MKRADIO3 | MULTICAL21
  | MULTICAL302 | OMNIPOWER | QCALORIC | SUPERCOM587 | VARIO451 | UNKNOWN
  deriving DecidableEq, Repr

/-- The factory functions `create<cname>` that a row of `LIST_OF_METERS` can
name in its last column (meters.h:29-40). -/
inductive MeterConstructor
  | Amiplus | Apator162 | EurisII | Multical21 | Iperl | MKRadio3
  | Multical302 | Omnipower | QCaloric | Supercom587 | Vario451
  deriving DecidableEq, Repr

/-- The link mode bits used in the second column of `LIST_OF_METERS`. -/
inductive LinkModeBit
  | C1_bit | T1_bit
  deriving DecidableEq, Repr

/-- The third column of `LIST_OF_METERS`. -/
inductive MeterMedia
  | Electricity | Water | HeatCostAllocation | Heat
  deriving DecidableEq, Repr

/-- One row `X(mname, link, info, type, cname)` of `LIST_OF_METERS`. -/
structure MeterRow where
  mname : String
  link : List LinkModeBit
  info : MeterMedia
  type : MeterType
  cname : MeterConstructor
  deriving DecidableEq, Repr

open MeterType MeterConstructor LinkModeBit MeterMedia in
/-- The table `LIST_OF_METERS` (meters.h:28-40), row by row. -/
def LIST_OF_METERS : List MeterRow :=
  [ ⟨"amiplus",     [T1_bit],         Electricity,        AMIPLUS,     Amiplus⟩,
    ⟨"apator162",   [C1_bit, T1_bit], Water,              APATOR162,   Apator162⟩,
    ⟨"eurisii",     [T1_bit],         HeatCostAllocation, EURISII,     EurisII⟩,
    ⟨"flowiq3100",  [C1_bit],         Water,              FLOWIQ3100,  Multical21⟩,
    ⟨"iperl",       [T1_bit],         Water,              IPERL,       Iperl⟩,
    ⟨"mkradio3",    [T1_bit],         Water,              MKRADIO3,    MKRadio3⟩,
    ⟨"multical21",  [C1_bit],         Water,              MULTICAL21,  Multical21⟩,
    ⟨"multical302", [C1_bit],         Heat,               MULTICAL302, Multical302⟩,
    ⟨"omnipower",   [C1_bit],         Electricity,        OMNIPOWER,   Omnipower⟩,
    ⟨"qcaloric",    [C1_bit],         HeatCostAllocation, QCALORIC,    QCaloric⟩,
    ⟨"supercom587", [T1_bit],         Water,              SUPERCOM587, Supercom587⟩,
    ⟨"vario451",    [T1_bit],         Heat,               VARIO451,    Vario451⟩ ]

/-- The type `LinkModeSet` comes from wmbus.h, which is not part of the
sources at hand; main.cc only passes values of it on.  A bitset. -/
structure LinkModeSet where
  bits : Nat
  deriving DecidableEq, Repr

/-- The struct `MeterInfo` (meters.h:54-72). -/
structure MeterInfo where
  name : String
  type : String
  id : String
  key : String
  link_modes : LinkModeSet
  shells : List String
  deriving DecidableEq, Repr

/-- Modelled from the spec: toMeterType is declared in meters.h:159 and its
body is not part of the sources at hand.  The catalog is closed and a tagged
identifier selects the family: the row of `LIST_OF_METERS` whose wire name is
the given string gives the tag, and any other string gives `UNKNOWN`. -/
def toMeterType (type : String) : MeterType :=
  match LIST_OF_METERS.find? (fun row => row.mname == type) with
  | some row => row.type
  | none => MeterType.UNKNOWN

/-- The two callbacks that main.cc registers with `Meter::onUpdate`:
the lambda of line 308 (`output->print(t,meter)`) and the lambda of line 309
(`oneshotCheck(config, manager.get(), t, meter, meters)`). -/
inductive Subscriber
  | print
  | oneshot
  deriving DecidableEq, Repr

/-- Unit of a configured conversion (units.h is not part of the sources at
hand; main.cc only passes the vector `config->conversions` on). -/
abbrev ConversionUnit := String

/-- Modelled from the spec: the struct Meter of meters.h:74-112 is abstract and
its implementations are not part of the sources at hand.  A runtime meter holds
its MeterInfo, a monotonically increasing `num_updates`, a list of on-update
subscribers (called sequentially, in registration order) and a list of declared
output-unit conversions.  `cname` records which factory built it and `type` the
tag it was built for.  `numUpdates()` has type `int`; the count starts at 0 and
only goes up, and is a natural number here. -/
structure Meter where
  info : MeterInfo
  type : MeterType
  cname : MeterConstructor
  conversions : List ConversionUnit
  num_updates : Nat
  subscribers : List Subscriber
  deriving DecidableEq, Repr

/-- The call `Meter::onUpdate(cb)` (meters.h:86): the callback is added at the
end of the meter's subscriber list. -/
def Meter.onUpdate (m : Meter) (cb : Subscriber) : Meter :=
  { m with subscribers := m.subscribers ++ [cb] }

/-- The call `Meter::addConversions(cs)` (meters.h:107). -/
def Meter.addConversions (m : Meter) (cs : List ConversionUnit) : Meter :=
  { m with conversions := m.conversions ++ cs }

/-- The call `Meter::numUpdates()` (meters.h:87). -/
def Meter.numUpdates (m : Meter) : Nat := m.num_updates

/-! ## What main.cc uses of its other headers -/

/-- The device kinds that the switch of main.cc:209-254 distinguishes. -/
inductive MBusDeviceType
  | DEVICE_IM871A | DEVICE_AMB8465 | DEVICE_SIMULATOR | DEVICE_RTLWMBUS | DEVICE_UNKNOWN
  deriving DecidableEq, Repr

/-- The opened dongle (`unique_ptr<WMBus> wmbus`): which open function made it
and the argument it was given (a device path, a file, or the command line of
the background process). -/
structure WMBus where
  type : MBusDeviceType
  arg : String
  deriving DecidableEq, Repr

/-- The enum `LinkModeCalculationResultType`: main.cc only distinguishes
`Success` from everything else. -/
inductive LinkModeCalculationResultType
  | Success
  | Failure (kind : Nat)
  deriving DecidableEq, Repr

/-- The struct `LinkModeCalculationResult`, with the two fields main.cc reads. -/
structure LinkModeCalculationResult where
  type : LinkModeCalculationResultType
  msg : String
  deriving DecidableEq, Repr

/-- The value of `config->meterfiles_action`. -/
inductive MeterFileType
  | Overwrite | Append
  deriving DecidableEq, Repr

/-- The fields of `Configuration` (config.h) that main.cc reads. -/
structure Configuration where
  version : Bool := false
  license : Bool := false
  need_help : Bool := false
  daemon : Bool := false
  useconfig : Bool := false
  config_root : String := ""
  pid_file : String := ""
  use_logfile : Bool := false
  logfile : String := ""
  silence : Bool := false
  verbose : Bool := false
  logtelegrams : Bool := false
  debug : Bool := false
  exitafter : Int := 0
  meterfiles : Bool := false
  meterfiles_dir : String := ""
  meterfiles_action : MeterFileType := MeterFileType.Overwrite
  device : String := ""
  device_extra : String := ""
  oneshot : Bool := false
  json : Bool := false
  fields : Bool := false
  separator : Char := ';'
  shells : List String := []
  list_shell_envs : Bool := false
  conversions : List ConversionUnit := []
  listen_to_link_modes : LinkModeSet := ⟨0⟩
  meters : List MeterInfo := []
  deriving DecidableEq, Repr

/-- Everything main.cc consults but does not compute: constants of version.h,
functions of util, config, wmbus and the meter implementations, and the
results of system calls. -/
structure Env where
  /-- The macro `VERSION` of version.h. -/
  VERSION : String
  /-- The macro `COMMIT` of version.h. -/
  COMMIT : String
  /-- Result of `enableLogfile(logfile, daemon)`. -/
  enableLogfile : String → Bool → Bool
  /-- Result of `detectMBusDevice(device, manager)`: the pair type, device. -/
  detectMBusDevice : String → MBusDeviceType × String
  /-- Result of `isFrequency(s)`. -/
  isFrequency : String → Bool
  /-- Result of `calculateLinkModes(config, wmbus)`. -/
  calculateLinkModes : Configuration → WMBus → LinkModeCalculationResult
  /-- Result of `wmbus->getLinkModes().hr()` after `setLinkModes` was given the set. -/
  getLinkModesHr : WMBus → LinkModeSet → String
  /-- The vector `envs` that `printMeter` fills for a meter. -/
  printMeterEnvs : Meter → List String
  /-- Result of `loadConfiguration(root)`. -/
  loadConfiguration : String → Configuration
  /-- Whether the n-th `fopen(pid_file, "w")` of the process gives a stream
  (n counts from 0). -/
  fopen : String → Nat → Bool
  /-- Whether `fprintf` on the pid file reports an error. -/
  fprintf_error : Bool
  /-- Result of `fork()`. -/
  fork : Int
  /-- Result of `setsid()`. -/
  setsid : Int
  /-- Result of `chdir("/")`. -/
  chdir : Int

/-- The calls made by main.cc, as they appear in a run. -/
inductive Event
  /-- Output of `printf`, with the arguments substituted. -/
  | printf (text : String)
  /-- The call `puts(license)` of main.cc:77 (the raw string of lines 56-76). -/
  | putsLicense
  /-- The call `puts(msg)` of main.cc:148 (the raw string of lines 82-147). -/
  | putsManual
  | setbuf
  | verbose (text : String)
  | debug (text : String)
  | notice (text : String)
  | warning (text : String)
  /-- The call `error(...)`, which also ends the process. -/
  | error (text : String)
  | enableLogfile (logfile : String) (daemon : Bool)
  | warningSilenced (b : Bool)
  | verboseEnabled (b : Bool)
  | logTelegramsEnabled (b : Bool)
  | debugEnabled (b : Bool)
  | createSerialCommunicationManager (exitafter : Int)
  | onExit
  | detectMBusDevice (device : String)
  | openIM871A (device : String)
  | openAMB8465 (device : String)
  | openSimulator (file : String)
  | openRTLWMBUS (command : String)
  | sleep (seconds : Nat)
  | calculateLinkModes (wmbus : WMBus)
  | setLinkModes (lms : LinkModeSet)
  | getLinkModes
  | newPrinter
  /-- The call `create<cname>(wmbus.get(), m)` pushed onto `meters`. -/
  | createMeter (cname : MeterConstructor) (m : MeterInfo)
  /-- The call `meters.back()->addConversions(cs)`; `index` is the position of
  `meters.back()`. -/
  | addConversions (index : Nat) (cs : List ConversionUnit)
  | printMeter (index : Nat)
  /-- The call `meters.back()->onUpdate(cb)`. -/
  | onUpdate (index : Nat) (cb : Subscriber)
  | onTelegram
  | simulate
  | waitForStop
  | setlogmask
  | openlog (ident : String)
  | enableSyslog
  /-- The call `fopen(file, mode)`; `ok` tells whether a stream came back. -/
  | fopen (file : String) (mode : String) (ok : Bool)
  /-- The call `fprintf(pidf, ...)` with the text it formats and its result. -/
  | fprintf (file : String) (text : String) (ret : Int)
  | fclose (file : String)
  | fork (ret : Int)
  | umask (mask : Nat)
  | setsid (ret : Int)
  | chdir (dir : String) (ret : Int)
  | close (fd : Nat)
  | loadConfiguration (root : String)
  /-- The call `output->print(t, meter)` for the meter at `index`. -/
  | print (index : Nat)
  /-- The call `manager->stop()`. -/
  | stop
  deriving DecidableEq, Repr

/-- How a function ended: it returned to its caller, or it ended the process
with `exit(code)`. -/
inductive Outcome
  | returned
  | exited (code : Int)
  deriving DecidableEq, Repr

/-- What a function of main.cc did: its calls in order, the vector `meters`
as it stands at the end, and how it ended. -/
structure Run where
  trace : List Event
  meters : List Meter
  outcome : Outcome
  deriving DecidableEq, Repr

/-- Modelled from the spec: error() is declared in util.h, which is not part
of the sources at hand.  A fatal error prints one line and the process exits
with code 1; code after the call does not run. -/
def error (text : String) (meters : List Meter) : Run :=
  ⟨[Event.error text], meters, Outcome.exited 1⟩

/-- Sequencing: the calls of `r`, then what `k` does, unless `r` ended the process. -/
def Run.andThen (r : Run) (k : List Meter → Run) : Run :=
  match r.outcome with
  | Outcome.exited _ => r
  | Outcome.returned =>
    let r2 := k r.meters
    ⟨r.trace ++ r2.trace, r2.meters, r2.outcome⟩

/-- A run that only makes calls and returns. -/
def calls (trace : List Event) (meters : List Meter) : Run :=
  ⟨trace, meters, Outcome.returned⟩

/-- The call `exit(code)`. -/
def exit (code : Int) (meters : List Meter) : Run :=
  ⟨[], meters, Outcome.exited code⟩

/-! ## main.cc -/

/-- Lines 332-338 of main.cc, the loop of `oneshotCheck`: it leaves the
function at the first meter whose `numUpdates()` is 0. -/
def allMetersUpdated : List Meter → Bool
  | [] => true
  | m :: rest => if m.numUpdates == 0 then false else allMetersUpdated rest

/-- The function `oneshotCheck` (main.cc:332-342): the calls it makes. -/
def oneshotCheck (config : Configuration) (meters : List Meter) : List Event :=
  if !config.oneshot then []
  else if allMetersUpdated meters then
    [Event.verbose "(main) all meters have received at least one update, stopping.\n",
     Event.stop]
  else []

/-- The function `writePid` (main.cc:344-359).  `call` tells which `fopen` of
the process this is.  The result of `fprintf` is the number of characters
written, or a negative value (here -1) when the write reports an error. -/
def writePid (env : Env) (call : Nat) (pid_file : String) (pid : Int) : Run :=
  if !env.fopen pid_file call then
    (calls [Event.fopen pid_file "w" false] []).andThen fun ms =>
      error ("Could not open pid file \"" ++ pid_file ++ "\" for writing!\n") ms
  else
    (calls [Event.fopen pid_file "w" true] []).andThen fun _ =>
    (if pid > 0 then
      let text := toString pid ++ "\n"
      let n : Int := if env.fprintf_error then -1 else (text.length : Int)
      (calls [Event.fprintf pid_file text n] []).andThen fun _ =>
      (if n == 0 then
        error ("Could not write pid (" ++ toString pid ++ ") to file \"" ++ pid_file ++ "\"!\n") []
       else calls [] []).andThen fun _ =>
      calls [Event.notice ("(wmbusmeters) started " ++ pid_file ++ "\n")] []
     else calls [] []).andThen fun _ =>
    calls [Event.fclose pid_file] []

/-- Lines 169-179 of main.cc: the log file. -/
def setupLogfile (env : Env) (config : Configuration) : Run :=
  if config.use_logfile then
    (calls [Event.verbose ("(wmbusmeters) using log file " ++ config.logfile ++ "\n"),
            Event.enableLogfile config.logfile config.daemon] []).andThen fun _ =>
    if !env.enableLogfile config.logfile config.daemon then
      if config.daemon then
        calls [Event.warning "Could not open log file, will use syslog instead.\n"] []
      else
        error "Could not open log file.\n" []
    else calls [] []
  else calls [] []

/-- Lines 181-203 of main.cc: logging switches, the lines that announce the
configuration, and the serial manager. -/
def announceConfiguration (env : Env) (config : Configuration) : List Event :=
  [Event.warningSilenced config.silence,
   Event.verboseEnabled config.verbose,
   Event.logTelegramsEnabled config.logtelegrams,
   Event.debugEnabled config.debug,
   Event.debug ("(wmbusmeters) version: " ++ env.VERSION ++ "\n")]
  ++ (if config.exitafter != 0 then
        [Event.verbose ("(config) wmbusmeters will exit after "
          ++ toString config.exitafter ++ " seconds\n")]
      else [])
  ++ (if config.meterfiles then
        [Event.verbose ("(config) store meter files in: \"" ++ config.meterfiles_dir ++ "\"\n")]
      else [])
  ++ [Event.verbose ("(config) using device: " ++ config.device ++ "\n")]
  ++ (if config.device_extra.length > 0 then
        [Event.verbose ("(config) with: " ++ config.device_extra ++ "\n")]
      else [])
  ++ [Event.verbose ("(config) number of meters: " ++ toString config.meters.length ++ "\n"),
      Event.createSerialCommunicationManager config.exitafter,
      Event.onExit]

/-- Lines 224-236 of main.cc: the command line of the background process for
an rtlwmbus device. -/
def rtlwmbusCommand (env : Env) (config : Configuration) : String :=
  let command := config.device_extra
  let freq := "868.95M"
  let pfx := ""
  let freq_command := if env.isFrequency command then (command, "") else (freq, command)
  let freq := freq_command.1
  let command := freq_command.2
  let pfx := if config.daemon then "/usr/bin/" else pfx
  if command == "" then
    pfx ++ "rtl_sdr -f " ++ freq ++ " -s 1.6e6 - 2>/dev/null | " ++ pfx ++ "rtl_wmbus"
  else command

open MBusDeviceType in
/-- Lines 207-254 of main.cc: device detection and the switch that opens the
dongle.  The second component is the opened dongle; it is `none` in the case
`DEVICE_UNKNOWN`, where the code goes on to `exit(1)`. -/
def openDevice (env : Env) (config : Configuration) : List Event × Option WMBus :=
  let type_and_device := env.detectMBusDevice config.device
  match type_and_device.1 with
  | DEVICE_IM871A =>
    ([Event.detectMBusDevice config.device,
      Event.verbose ("(im871a) detected on " ++ type_and_device.2 ++ "\n"),
      Event.openIM871A type_and_device.2], some ⟨DEVICE_IM871A, type_and_device.2⟩)
  | DEVICE_AMB8465 =>
    ([Event.detectMBusDevice config.device,
      Event.verbose ("(amb8465) detected on " ++ type_and_device.2 ++ "\n"),
      Event.openAMB8465 type_and_device.2], some ⟨DEVICE_AMB8465, type_and_device.2⟩)
  | DEVICE_SIMULATOR =>
    ([Event.detectMBusDevice config.device,
      Event.verbose ("(simulator) found " ++ type_and_device.2 ++ "\n"),
      Event.openSimulator type_and_device.2], some ⟨DEVICE_SIMULATOR, type_and_device.2⟩)
  | DEVICE_RTLWMBUS =>
    let command := rtlwmbusCommand env config
    ([Event.detectMBusDevice config.device,
      Event.verbose ("(rtlwmbus) using command: " ++ command ++ "\n"),
      Event.openRTLWMBUS command], some ⟨DEVICE_RTLWMBUS, command⟩)
  | DEVICE_UNKNOWN =>
    ([Event.detectMBusDevice config.device,
      Event.warning "No wmbus device found! Exiting!\n"]
      ++ (if config.daemon then [Event.sleep 1] else []), none)

/-- Line 275 of main.cc: `(m.key[0] == 0) ? "not-encrypted" : "encrypted"`. -/
def keymsg (m : MeterInfo) : String :=
  match m.key.data with
  | [] => "not-encrypted"
  | c :: _ => if c.toNat == 0 then "not-encrypted" else "encrypted"

/-- The switch of main.cc:276-289 picks the case of the row of
`LIST_OF_METERS` whose tag is `toMeterType(m.type)`; the tag `UNKNOWN` has no
row. -/
def meterRow (m : MeterInfo) : Option MeterRow :=
  LIST_OF_METERS.find? (fun row => row.type == toMeterType m.type)

/-- The meter that `create<cname>(wmbus.get(), m)` gives: no update yet, no
subscriber, no conversion. -/
def newMeter (row : MeterRow) (m : MeterInfo) : Meter :=
  ⟨m, row.type, row.cname, [], 0, []⟩

/-- Lines 302-304 of main.cc: the part of `e` before its first `=`, all of `e`
when it has none. -/
def envKey (e : String) : String :=
  String.mk (e.data.takeWhile (fun c => c != '='))

/-- The loop of main.cc:274-310 over `config->meters`, started with the
vector `meters` built so far. -/
def configureMeters (env : Env) (config : Configuration) :
    List MeterInfo → List Meter → Run
  | [], meters => calls [] meters
  | m :: rest, meters =>
    match meterRow m with
    | none => error ("No such meter type \"" ++ m.type ++ "\"\n") meters
    | some row =>
      let index := meters.length
      let meters := meters ++ [newMeter row m]
      let meters := meters.modifyLast (fun b => b.addConversions config.conversions)
      (calls [Event.createMeter row.cname m,
              Event.verbose ("(wmbusmeters) configured \"" ++ m.name ++ "\" \"" ++ row.mname
                ++ "\" \"" ++ m.id ++ "\" " ++ keymsg m ++ "\n"),
              Event.addConversions index config.conversions] meters).andThen fun meters =>
      if config.list_shell_envs then
        let envs := match meters.getLast? with
          | some b => env.printMeterEnvs b
          | none => []
        (calls ([Event.printMeter index,
                 Event.printf ("Environment variables provided to shell for meter "
                   ++ m.type ++ ":\n")]
                ++ envs.map (fun e => Event.printf (envKey e ++ "\n"))) meters).andThen fun meters =>
        exit 0 meters
      else
        let meters := meters.modifyLast (fun b => b.onUpdate Subscriber.print)
        let meters := meters.modifyLast (fun b => b.onUpdate Subscriber.oneshot)
        (calls [Event.onUpdate index Subscriber.print,
                Event.onUpdate index Subscriber.oneshot] meters).andThen fun meters =>
        configureMeters env config rest meters

/-- Lines 317-329 of main.cc: the simulation, if the dongle is the simulator,
and the blocking call `manager->waitForStop()`, which is one event here; what
happens to the meters while the loop runs is `meterUpdated` below. -/
def runLoop (config : Configuration) (wmbus : WMBus) (meters : List Meter) : Run :=
  calls ((if wmbus.type == MBusDeviceType.DEVICE_SIMULATOR then [Event.simulate] else [])
         ++ (if config.daemon then [Event.notice "(wmbusmeters) waiting for telegrams\n"] else [])
         ++ [Event.waitForStop]
         ++ (if config.daemon then [Event.notice "(wmbusmeters) shutting down\n"] else []))
        meters

/-- Lines 271-315 of main.cc: the vector `meters` is declared empty and filled
from `config->meters`; without configured meters a telegram printer is
registered on the dongle instead. -/
def setupMeters (env : Env) (config : Configuration) : Run :=
  if config.meters.length > 0 then
    configureMeters env config config.meters []
  else
    calls [Event.notice "No meters configured. Printing id:s of all telegrams heard!\n\n",
           Event.onTelegram] []

/-- Lines 256-329 of main.cc: what `startUsingCommandline` does once the
dongle is open. -/
def startWithDevice (env : Env) (config : Configuration) (wmbus : WMBus) : Run :=
  let lmcr := env.calculateLinkModes config wmbus
  (calls [Event.calculateLinkModes wmbus] []).andThen fun _ =>
  (if lmcr.type != LinkModeCalculationResultType.Success then
    error (lmcr.msg ++ "\n") []
   else calls [] []).andThen fun _ =>
  let using_link_modes := env.getLinkModesHr wmbus config.listen_to_link_modes
  (calls [Event.setLinkModes config.listen_to_link_modes,
          Event.getLinkModes,
          Event.verbose ("(config) listen to link modes: " ++ using_link_modes ++ "\n"),
          Event.newPrinter] []).andThen fun _ =>
  (setupMeters env config).andThen fun meters =>
  runLoop config wmbus meters

/-- The function `startUsingCommandline` (main.cc:167-330). -/
def startUsingCommandline (env : Env) (config : Configuration) : Run :=
  (setupLogfile env config).andThen fun _ =>
  (calls (announceConfiguration env config) []).andThen fun _ =>
  let opened := openDevice env config
  (calls opened.1 []).andThen fun _ =>
  match opened.2 with
  | none => exit 1 []
  | some wmbus => startWithDevice env config wmbus

/-- The function `startUsingConfigFiles` (main.cc:405-411). -/
def startUsingConfigFiles (env : Env) (root : String) (is_daemon : Bool) : Run :=
  let config := env.loadConfiguration root
  let config := { config with daemon := is_daemon }
  (calls [Event.loadConfiguration root] []).andThen fun _ =>
  startUsingCommandline env config

/-- Lines 384-402 of main.cc: what `startDaemon` does in the child process. -/
def daemonChild (env : Env) : Run :=
  let sid := env.setsid
  (calls [Event.umask 0, Event.setsid sid] []).andThen fun _ =>
  (if sid < 0 then exit (-1) [] else calls [] []).andThen fun _ =>
  (calls [Event.chdir "/" env.chdir] []).andThen fun _ =>
  (if env.chdir < 0 then
    error "Could not change to root as current working directory." []
   else calls [] []).andThen fun _ =>
  (calls [Event.close 0, Event.close 1, Event.close 2] []).andThen fun _ =>
  startUsingConfigFiles env "" true

/-- The function `startDaemon` (main.cc:361-403).  A run follows one process:
the parent when `fork` gives a positive pid, the child when it gives 0. -/
def startDaemon (env : Env) (pid_file : String) : Run :=
  (calls [Event.setlogmask, Event.openlog "wmbusmetersd", Event.enableSyslog] []).andThen fun _ =>
  (writePid env 0 pid_file 0).andThen fun _ =>
  let pid := env.fork
  (calls [Event.fork pid] []).andThen fun _ =>
  (if pid < 0 then error "Could not fork.\n" [] else calls [] []).andThen fun _ =>
  if pid > 0 then
    writePid env 1 pid_file pid
  else
    daemonChild env

/-- The function `main` (main.cc:46-165), from the parsed command line on. -/
def main (env : Env) (cmdline : Configuration) : Run :=
  if cmdline.version then
    (calls [Event.printf ("wmbusmeters: " ++ env.VERSION ++ "\n"),
            Event.printf (env.COMMIT ++ "\n")] []).andThen fun ms =>
    exit 0 ms
  else if cmdline.license then
    (calls [Event.putsLicense] []).andThen fun ms =>
    exit 0 ms
  else if cmdline.need_help then
    calls [Event.printf ("wmbusmeters version: " ++ env.VERSION ++ "\n"),
           Event.putsManual] []
  else if cmdline.daemon then
    (startDaemon env cmdline.pid_file).andThen fun ms =>
    exit 0 ms
  else if cmdline.useconfig then
    (startUsingConfigFiles env cmdline.config_root false).andThen fun ms =>
    exit 0 ms
  else
    (calls [Event.setbuf] []).andThen fun _ =>
    startUsingCommandline env cmdline

/-- The exit status of the process: the low eight bits of the argument of
`exit` (so `exit(-1)` gives 255), and 0 when `main` reaches its end. -/
def Run.exitCode (r : Run) : Int :=
  match r.outcome with
  | Outcome.returned => 0
  | Outcome.exited code => code % 256

/-! ## Updates while the loop runs -/

/-- One callback of a meter, called for an update of the meter at `index`. -/
def Subscriber.call (config : Configuration) (meters : List Meter) (index : Nat) :
    Subscriber → List Event
  | Subscriber.print => [Event.print index]
  | Subscriber.oneshot => oneshotCheck config meters

/-- Modelled from the spec: Meter::handleTelegram is declared in meters.h:95 and
its body is not part of the sources at hand.  An update of the meter at `index`
increments its `num_updates`, and the update callbacks are invoked after the
internal state is updated, sequentially in registration order.  The result is
the vector of meters after the update and the calls the callbacks made. -/
def meterUpdated (config : Configuration) (meters : List Meter) (index : Nat) :
    List Meter × List Event :=
  match meters.get? index with
  | none => (meters, [])
  | some m =>
    let meters := meters.set index { m with num_updates := m.num_updates + 1 }
    (meters, (m.subscribers.map (fun cb => cb.call config meters index)).flatten)

/-- The vector of meters after a sequence of updates, given by the indices of
the updated meters. -/
def metersAfter (config : Configuration) : List Meter → List Nat → List Meter
  | meters, [] => meters
  | meters, index :: rest => metersAfter config (meterUpdated config meters index).1 rest

/-- The calls made by the callbacks at each update of a sequence of updates. -/
def updateCalls (config : Configuration) : List Meter → List Nat → List (List Event)
  | _, [] => []
  | meters, index :: rest =>
    (meterUpdated config meters index).2
      :: updateCalls config (meterUpdated config meters index).1 rest

/-- The k-th update of the sequence requests `stop()`. -/
def stopRequestedAt (config : Configuration) (meters : List Meter) (updates : List Nat)
    (k : Nat) : Prop :=
  Event.stop ∈ (updateCalls config meters updates).getD k []

/-- After the k-th update of the sequence every meter has `num_updates >= 1`. -/
def allUpdatedAfter (config : Configuration) (meters : List Meter) (updates : List Nat)
    (k : Nat) : Prop :=
  ∀ m ∈ metersAfter config meters (updates.take (k + 1)), 1 ≤ m.num_updates

/-- Modelled from the spec: toMeterName is declared in meters.h:158 and its
body is not part of the sources at hand.  The wire name in the catalog row of
the tag; the tag `UNKNOWN` has no row. -/
def toMeterName (mt : MeterType) : String :=
  match LIST_OF_METERS.find? (fun row => row.type == mt) with
  | some row => row.mname
  | none => "unknown"

/-- The runtime meter that one pass of the loop of main.cc:274-310 leaves in
`meters` for the configured entry `m`, when nothing ends the process: built by
the factory of its catalog row, given the configured conversions, with the
print callback and then the oneshot callback registered. -/
def configuredMeter (config : Configuration) (m : MeterInfo) : Option Meter :=
  match meterRow m with
  | none => none
  | some row =>
    some ((((newMeter row m).addConversions config.conversions).onUpdate
      Subscriber.print).onUpdate Subscriber.oneshot)

/-- The pair (family, id) of a runtime meter. -/
def Meter.familyAndId (b : Meter) : MeterType × String := (b.type, b.info.id)

/-! ## Kinds of calls -/

/-- The calls that open a dongle. -/
def Event.opensDevice : Event → Bool
  | Event.openIM871A _ => true
  | Event.openAMB8465 _ => true
  | Event.openSimulator _ => true
  | Event.openRTLWMBUS _ => true
  | _ => false

/-- The call `wmbus->setLinkModes`. -/
def Event.setsLinkModes : Event → Bool
  | Event.setLinkModes _ => true
  | _ => false

/-- The calls that create a runtime meter. -/
def Event.createsMeter : Event → Bool
  | Event.createMeter _ _ => true
  | _ => false

/-- The calls that register a callback: on a meter, or on the dongle. -/
def Event.registersSubscriber : Event → Bool
  | Event.onUpdate _ _ => true
  | Event.onTelegram => true
  | _ => false

/-- The call that enters the event loop. -/
def Event.entersLoop : Event → Bool
  | Event.waitForStop => true
  | _ => false

/-- The calls that print to standard output with `printf` or `puts`. -/
def Event.printsOutput : Event → Bool
  | Event.printf _ => true
  | Event.putsLicense => true
  | Event.putsManual => true
  | _ => false

/-- The call `error(...)`, the fatal error. -/
def Event.isFatalError : Event → Bool
  | Event.error _ => true
  | _ => false

/-- The call `calculateLinkModes`. -/
def Event.calculatesLinkModes : Event → Bool
  | Event.calculateLinkModes _ => true
  | _ => false

/-- The call `fork()`, with which the daemon is started. -/
def Event.forks : Event → Bool
  | Event.fork _ => true
  | _ => false

/-- The call `loadConfiguration`, which reads the configuration directory. -/
def Event.loadsConfiguration : Event → Bool
  | Event.loadConfiguration _ => true
  | _ => false

/-- The calls that write the pid file: `fopen(.., "w")`, which truncates or
creates it, and `fprintf` on it. -/
def Event.writesPidFile : Event → Bool
  | Event.fopen _ _ _ => true
  | Event.fprintf _ _ _ => true
  | _ => false

/-- The calls with which the meter runtime is started: everything
`startUsingConfigFiles` and `startUsingCommandline` do with configuration,
dongle, meters and the loop. -/
def Event.startsRuntime (e : Event) : Bool :=
  e.loadsConfiguration || e.opensDevice || e.setsLinkModes || e.createsMeter
    || e.registersSubscriber || e.entersLoop
    || (match e with
        | Event.createSerialCommunicationManager _ => true
        | Event.detectMBusDevice _ => true
        | _ => false)

/-! ## Sample inputs -/

/-- An environment in which everything works: the device is the simulator,
the link modes fit, the pid file opens, and `fork` gives the child pid 4242. -/
def sampleEnv : Env :=
  { VERSION := "0.9.1",
    COMMIT := "c0ffee",
    enableLogfile := fun _ _ => true,
    detectMBusDevice := fun device => (MBusDeviceType.DEVICE_SIMULATOR, device),
    isFrequency := fun s => s == "868.9M",
    calculateLinkModes := fun _ _ => ⟨LinkModeCalculationResultType.Success, ""⟩,
    getLinkModesHr := fun _ _ => "c1",
    printMeterEnvs := fun _ => ["METER_JSON=1", "METER_ID=2", "METER_NAME"],
    loadConfiguration := fun _ => {},
    fopen := fun _ _ => true,
    fprintf_error := false,
    fork := 4242,
    setsid := 0,
    chdir := 0 }

/-- The sample environment without a wM-Bus device. -/
def noDeviceEnv : Env :=
  { sampleEnv with detectMBusDevice := fun device => (MBusDeviceType.DEVICE_UNKNOWN, device) }

/-- The sample environment with a dongle that cannot listen to the link modes. -/
def badLinkModesEnv : Env :=
  { sampleEnv with
    calculateLinkModes := fun _ _ =>
      ⟨LinkModeCalculationResultType.Failure 1, "cannot listen to c1 and t1"⟩ }

/-- The sample environment with an rtlwmbus device. -/
def rtlwmbusEnv : Env :=
  { sampleEnv with detectMBusDevice := fun device => (MBusDeviceType.DEVICE_RTLWMBUS, device) }

/-- The sample environment in which the pid file opens and the write of the
pid to it reports an error. -/
def failedWriteEnv : Env :=
  { sampleEnv with fprintf_error := true }

/-- A configured water meter. -/
def kitchen : MeterInfo := ⟨"kitchen", "multical21", "76348799", "", ⟨0⟩, []⟩

/-- A configured heat meter. -/
def cellar : MeterInfo := ⟨"cellar", "vario451", "12345678", "", ⟨0⟩, []⟩

/-- A oneshot configuration with two meters. -/
def oneshotConfig : Configuration :=
  { device := "simulation_t1.txt", oneshot := true, meters := [kitchen, cellar] }

/-- A configuration that names the same meter twice. -/
def duplicateConfig : Configuration :=
  { device := "simulation_t1.txt", meters := [kitchen, kitchen] }

/-- A configuration that asks for the shell environment names of a meter. -/
def shellenvsConfig : Configuration :=
  { device := "simulation_t1.txt", list_shell_envs := true, meters := [kitchen, cellar] }

/-- A configuration that asks for the shell environment names and names no meter. -/
def shellenvsNoMeterConfig : Configuration :=
  { device := "simulation_t1.txt", list_shell_envs := true }

/-- A command line with `--version` next to a daemon start, a configuration
directory, a device and a meter. -/
def versionConfig : Configuration :=
  { version := true, daemon := true, useconfig := true, device := "auto", meters := [kitchen] }

/-- A configured flowIQ 3100. -/
def bathroom : MeterInfo := ⟨"bathroom", "flowiq3100", "11223344", "", ⟨0⟩, []⟩

/-- A configured meter of a type that the catalog does not have. -/
def attic : MeterInfo := ⟨"attic", "waterstarm", "55667788", "", ⟨0⟩, []⟩

/-- A configuration with three meters of the catalog and a conversion. -/
def catalogConfig : Configuration :=
  { device := "simulation_t1.txt", conversions := ["GJ"], meters := [bathroom, kitchen, cellar] }

/-- A configuration whose second meter has a type outside the catalog. -/
def unknownTypeConfig : Configuration :=
  { device := "simulation_t1.txt", meters := [kitchen, attic, cellar] }

/-- The sample environment in which the pid file opens the first time, before
the fork, and not the second time. -/
def reopenFailsEnv : Env :=
  { sampleEnv with fopen := fun _ call => call == 0 }

/-- A configuration that asks for the shell environment names and whose second
meter has a type outside the catalog. -/
def shellenvsUnknownConfig : Configuration :=
  { device := "simulation_t1.txt", list_shell_envs := true, meters := [kitchen, attic] }

/-! ## Sequencing lemmas -/

@[simp]
theorem andThen_returned (t : List Event) (ms : List Meter) (k : List Meter → Run) :
    (Run.mk t ms Outcome.returned).andThen k
      = ⟨t ++ (k ms).trace, (k ms).meters, (k ms).outcome⟩ := rfl

@[simp]
theorem andThen_exited (t : List Event) (ms : List Meter) (c : Int)
    (k : List Meter → Run) :
    (Run.mk t ms (Outcome.exited c)).andThen k = ⟨t, ms, Outcome.exited c⟩ := rfl

theorem andThen_of_returned {r : Run} (k : List Meter → Run) (h : r.outcome = Outcome.returned) :
    r.andThen k = ⟨r.trace ++ (k r.meters).trace, (k r.meters).meters, (k r.meters).outcome⟩ := by
  unfold Run.andThen; rw [h]

theorem andThen_of_exited {r : Run} (k : List Meter → Run) {c : Int}
    (h : r.outcome = Outcome.exited c) : r.andThen k = r := by
  unfold Run.andThen; rw [h]

/-- A property of all calls of both parts holds of all calls of the sequence. -/
theorem forall_trace_andThen {P : Event → Prop} {r : Run} {k : List Meter → Run}
    (h1 : ∀ e ∈ r.trace, P e) (h2 : ∀ ms, ∀ e ∈ (k ms).trace, P e) :
    ∀ e ∈ (r.andThen k).trace, P e := by
  unfold Run.andThen
  cases h : r.outcome with
  | returned =>
    intro e he
    simp only [List.mem_append] at he
    rcases he with he | he
    · exact h1 e he
    · exact h2 _ e he
  | exited c => exact h1

/-- Calls that belong neither to the set-up of dongle and meters nor to the
daemon start. -/
theorem setupLogfile_quiet (env : Env) (config : Configuration) :
    ∀ e ∈ (setupLogfile env config).trace,
      e.opensDevice = false ∧ e.setsLinkModes = false ∧ e.calculatesLinkModes = false ∧
      e.createsMeter = false ∧ e.registersSubscriber = false ∧ e.entersLoop = false ∧
      e.writesPidFile = false ∧ e.forks = false ∧ e.loadsConfiguration = false := by
  unfold setupLogfile
  split_ifs <;> simp [calls, error, Event.writesPidFile, Event.forks,
    Event.loadsConfiguration, Event.opensDevice, Event.setsLinkModes, Event.createsMeter,
    Event.registersSubscriber, Event.entersLoop, Event.calculatesLinkModes]

theorem setupLogfile_cases (env : Env) (config : Configuration) :
    (setupLogfile env config).meters = [] ∧
    ((setupLogfile env config).outcome = Outcome.returned ∨
     (setupLogfile env config).outcome = Outcome.exited 1) := by
  unfold setupLogfile
  split_ifs <;> simp [calls, error]

theorem announceConfiguration_quiet (env : Env) (config : Configuration) :
    ∀ e ∈ announceConfiguration env config,
      e.opensDevice = false ∧ e.setsLinkModes = false ∧ e.calculatesLinkModes = false ∧
      e.createsMeter = false ∧ e.registersSubscriber = false ∧ e.entersLoop = false ∧
      e.writesPidFile = false ∧ e.forks = false ∧ e.loadsConfiguration = false := by
  unfold announceConfiguration
  split_ifs <;> simp [Event.writesPidFile, Event.forks,
    Event.loadsConfiguration, Event.opensDevice, Event.setsLinkModes, Event.createsMeter,
    Event.registersSubscriber, Event.entersLoop, Event.calculatesLinkModes]

theorem openDevice_quiet (env : Env) (config : Configuration) :
    ∀ e ∈ (openDevice env config).1,
      e.setsLinkModes = false ∧ e.calculatesLinkModes = false ∧
      e.createsMeter = false ∧ e.registersSubscriber = false ∧ e.entersLoop = false ∧
      e.writesPidFile = false ∧ e.forks = false ∧ e.loadsConfiguration = false := by
  unfold openDevice
  generalize env.detectMBusDevice config.device = tad
  rcases tad with ⟨t, d⟩
  cases t <;> (try split_ifs) <;> simp [Event.writesPidFile, Event.forks,
    Event.loadsConfiguration, Event.opensDevice, Event.setsLinkModes, Event.createsMeter,
    Event.registersSubscriber, Event.entersLoop, Event.calculatesLinkModes]

theorem runLoop_quiet (config : Configuration) (wmbus : WMBus) (meters : List Meter) :
    ∀ e ∈ (runLoop config wmbus meters).trace,
      e.opensDevice = false ∧ e.setsLinkModes = false ∧ e.calculatesLinkModes = false ∧
      e.createsMeter = false ∧ e.registersSubscriber = false ∧
      e.writesPidFile = false ∧ e.forks = false ∧ e.loadsConfiguration = false := by
  unfold runLoop
  split_ifs <;> simp [calls, Event.writesPidFile, Event.forks,
    Event.loadsConfiguration, Event.opensDevice, Event.setsLinkModes, Event.createsMeter,
    Event.registersSubscriber, Event.entersLoop, Event.calculatesLinkModes]

theorem configureMeters_quiet (env : Env) (config : Configuration) (ms : List MeterInfo) :
    ∀ (meters : List Meter), ∀ e ∈ (configureMeters env config ms meters).trace,
      e.opensDevice = false ∧ e.setsLinkModes = false ∧ e.calculatesLinkModes = false ∧
      e.entersLoop = false ∧
      e.writesPidFile = false ∧ e.forks = false ∧ e.loadsConfiguration = false := by
  induction ms with
  | nil => intro meters; simp [configureMeters, calls]
  | cons m rest ih =>
    intro meters
    unfold configureMeters
    split
    · simp [error, Event.writesPidFile, Event.forks,
        Event.loadsConfiguration, Event.opensDevice, Event.setsLinkModes,
        Event.entersLoop, Event.calculatesLinkModes]
    · apply forall_trace_andThen
      · simp [calls, Event.writesPidFile, Event.forks,
          Event.loadsConfiguration, Event.opensDevice, Event.setsLinkModes,
          Event.entersLoop, Event.calculatesLinkModes]
      · intro ms2
        split_ifs
        · apply forall_trace_andThen
          · simp [calls, Event.writesPidFile, Event.forks,
              Event.loadsConfiguration, Event.opensDevice, Event.setsLinkModes,
              Event.entersLoop, Event.calculatesLinkModes]
          · intro _; simp [exit]
        · apply forall_trace_andThen
          · simp [calls, Event.writesPidFile, Event.forks,
              Event.loadsConfiguration, Event.opensDevice, Event.setsLinkModes,
              Event.entersLoop, Event.calculatesLinkModes]
          · intro ms3; exact ih ms3

theorem setupMeters_quiet (env : Env) (config : Configuration) :
    ∀ e ∈ (setupMeters env config).trace,
      e.opensDevice = false ∧ e.setsLinkModes = false ∧ e.calculatesLinkModes = false ∧
      e.entersLoop = false ∧
      e.writesPidFile = false ∧ e.forks = false ∧ e.loadsConfiguration = false := by
  unfold setupMeters
  split_ifs
  · exact configureMeters_quiet env config _ _
  · simp [calls, Event.writesPidFile, Event.forks,
      Event.loadsConfiguration, Event.opensDevice, Event.setsLinkModes,
      Event.entersLoop, Event.calculatesLinkModes]

/-- What follows the link mode set-up: meters, then the loop. -/
theorem setupMeters_runLoop_quiet (env : Env) (config : Configuration) (wmbus : WMBus) :
    ∀ e ∈ ((setupMeters env config).andThen fun meters => runLoop config wmbus meters).trace,
      e.opensDevice = false ∧ e.setsLinkModes = false ∧ e.calculatesLinkModes = false ∧
      e.writesPidFile = false ∧ e.forks = false ∧ e.loadsConfiguration = false := by
  apply forall_trace_andThen
  · intro e he
    obtain ⟨a, b, c, -, d, f, g⟩ := setupMeters_quiet env config e he
    exact ⟨a, b, c, d, f, g⟩
  · intro ms e he
    obtain ⟨a, b, c, -, -, d, f, g⟩ := runLoop_quiet config wmbus ms e he
    exact ⟨a, b, c, d, f, g⟩

theorem startWithDevice_failure (env : Env) (config : Configuration) (wmbus : WMBus)
    (h : (env.calculateLinkModes config wmbus).type ≠ LinkModeCalculationResultType.Success) :
    startWithDevice env config wmbus
      = ⟨[Event.calculateLinkModes wmbus,
          Event.error ((env.calculateLinkModes config wmbus).msg ++ "\n")], [],
         Outcome.exited 1⟩ := by
  simp [startWithDevice, calls, error, h]

theorem startWithDevice_success (env : Env) (config : Configuration) (wmbus : WMBus)
    (h : (env.calculateLinkModes config wmbus).type = LinkModeCalculationResultType.Success) :
    startWithDevice env config wmbus
      = ⟨[Event.calculateLinkModes wmbus,
          Event.setLinkModes config.listen_to_link_modes,
          Event.getLinkModes,
          Event.verbose ("(config) listen to link modes: "
            ++ env.getLinkModesHr wmbus config.listen_to_link_modes ++ "\n"),
          Event.newPrinter]
          ++ ((setupMeters env config).andThen fun meters => runLoop config wmbus meters).trace,
         ((setupMeters env config).andThen fun meters => runLoop config wmbus meters).meters,
         ((setupMeters env config).andThen fun meters => runLoop config wmbus meters).outcome⟩ := by
  simp [startWithDevice, calls, h]

/-- The shape of a run of `startUsingCommandline`: either it ends with exit
code 1 before a dongle is in use, or the dongle is open and the rest is
`startWithDevice`. -/
theorem startUsingCommandline_split (env : Env) (config : Configuration) :
    ∃ pre : List Event,
      (∀ e ∈ pre, e.setsLinkModes = false ∧ e.calculatesLinkModes = false ∧
        e.createsMeter = false ∧ e.registersSubscriber = false ∧ e.entersLoop = false ∧
        e.writesPidFile = false ∧ e.forks = false ∧ e.loadsConfiguration = false) ∧
      (∀ e ∈ pre, e.opensDevice = true →
        (setupLogfile env config).outcome = Outcome.returned ∧ e ∈ (openDevice env config).1) ∧
      (startUsingCommandline env config = ⟨pre, [], Outcome.exited 1⟩ ∧
          ((setupLogfile env config).outcome = Outcome.exited 1 ∨
           (openDevice env config).2 = none) ∨
       ∃ wmbus, (openDevice env config).2 = some wmbus ∧
         (setupLogfile env config).outcome = Outcome.returned ∧
         pre = (setupLogfile env config).trace ++ announceConfiguration env config
                 ++ (openDevice env config).1 ∧
         startUsingCommandline env config
           = ⟨pre ++ (startWithDevice env config wmbus).trace,
              (startWithDevice env config wmbus).meters,
              (startWithDevice env config wmbus).outcome⟩) := by
  obtain ⟨hm, ho⟩ := setupLogfile_cases env config
  have hq := setupLogfile_quiet env config
  rcases ho with ho | ho
  · refine ⟨(setupLogfile env config).trace ++ announceConfiguration env config
              ++ (openDevice env config).1, ?_, ?_, ?_⟩
    · intro e he
      simp only [List.mem_append] at he
      rcases he with (he | he) | he
      · exact (hq e he).2
      · exact (announceConfiguration_quiet env config e he).2
      · exact openDevice_quiet env config e he
    · intro e he hopen
      simp only [List.mem_append] at he
      rcases he with (he | he) | he
      · rw [(hq e he).1] at hopen; cases hopen
      · rw [(announceConfiguration_quiet env config e he).1] at hopen; cases hopen
      · exact ⟨ho, he⟩
    · cases hdev : (openDevice env config).2 with
      | none =>
        left
        refine ⟨?_, Or.inr rfl⟩
        unfold startUsingCommandline
        rw [andThen_of_returned _ ho]
        simp [calls, exit, hdev]
      | some wmbus =>
        right
        refine ⟨wmbus, rfl, ho, rfl, ?_⟩
        unfold startUsingCommandline
        rw [andThen_of_returned _ ho]
        simp [calls, hdev]
  · refine ⟨(setupLogfile env config).trace, ?_, ?_, ?_⟩
    · intro e he
      exact (hq e he).2
    · intro e he hopen
      rw [(hq e he).1] at hopen; cases hopen
    · left
      refine ⟨?_, Or.inl ho⟩
      unfold startUsingCommandline
      rw [andThen_of_exited _ ho]
      cases hr : setupLogfile env config with
      | mk t ms o =>
        rw [hr] at hm ho
        simp only at hm ho
        rw [hm, ho]

/-! ## The meter loop -/

/-- When the loop over the configured meters runs to its end, it has added to
`meters` one runtime meter per configured entry, in order. -/
theorem configureMeters_returned (env : Env) (config : Configuration) (ms : List MeterInfo) :
    ∀ meters : List Meter,
      (configureMeters env config ms meters).outcome = Outcome.returned →
      ∃ built : List Meter,
        (configureMeters env config ms meters).meters = meters ++ built ∧
        built.map some = ms.map (configuredMeter config) := by
  induction ms with
  | nil =>
    intro meters _
    exact ⟨[], by simp [configureMeters, calls], rfl⟩
  | cons m rest ih =>
    intro meters h
    unfold configureMeters at h ⊢
    cases hrow : meterRow m with
    | none => simp [hrow, error] at h
    | some row =>
      simp only [hrow, calls, andThen_returned] at h ⊢
      by_cases hl : config.list_shell_envs = true
      · simp [hl, exit] at h
      · simp only [hl, if_false, andThen_returned, List.modifyLast_append_one,
          Bool.false_eq_true] at h ⊢
        obtain ⟨built, hb1, hb2⟩ := ih _ h
        refine ⟨(((newMeter row m).addConversions config.conversions).onUpdate
          Subscriber.print).onUpdate Subscriber.oneshot :: built, ?_, ?_⟩
        · rw [hb1]; simp
        · simp [hb2, configuredMeter, hrow]

theorem meterRow_type {m : MeterInfo} {row : MeterRow} (h : meterRow m = some row) :
    row.type = toMeterType m.type := by
  have := List.find?_some h
  simpa using this

/-- What the loop leaves for a configured entry. -/
theorem configuredMeter_some {config : Configuration} {m : MeterInfo} {b : Meter}
    (h : configuredMeter config m = some b) :
    b.info = m ∧ b.type = toMeterType m.type ∧ b.conversions = config.conversions ∧
    b.num_updates = 0 ∧ b.subscribers = [Subscriber.print, Subscriber.oneshot] := by
  unfold configuredMeter at h
  cases hrow : meterRow m with
  | none => simp [hrow] at h
  | some row =>
    simp only [hrow, Option.some.injEq] at h
    subst h
    simp [Meter.onUpdate, Meter.addConversions, newMeter, meterRow_type hrow]

/-- A run of `startUsingCommandline` that comes back from the loop has built
one runtime meter per configured entry, in order. -/
theorem startUsingCommandline_returned (env : Env) (config : Configuration)
    (h : (startUsingCommandline env config).outcome = Outcome.returned) :
    (startUsingCommandline env config).meters.map some
      = config.meters.map (configuredMeter config) := by
  obtain ⟨pre, -, -, hsplit⟩ := startUsingCommandline_split env config
  rcases hsplit with ⟨heq, -⟩ | ⟨wmbus, -, -, -, heq⟩
  · rw [heq] at h; cases h
  · rw [heq] at h ⊢
    simp only at h ⊢
    by_cases hs : (env.calculateLinkModes config wmbus).type
        = LinkModeCalculationResultType.Success
    · rw [startWithDevice_success env config wmbus hs] at h ⊢
      simp only at h ⊢
      cases ho : (setupMeters env config).outcome with
      | exited c =>
        rw [andThen_of_exited _ ho] at h
        rw [ho] at h; cases h
      | returned =>
        rw [andThen_of_returned _ ho]
        simp only [runLoop, calls]
        unfold setupMeters at ho ⊢
        by_cases hn : config.meters.length > 0
        · simp only [hn, if_true] at ho ⊢
          obtain ⟨built, hb1, hb2⟩ := configureMeters_returned env config config.meters [] ho
          rw [hb1]
          simpa using hb2
        · have hnil : config.meters = [] := by
            cases hc : config.meters with
            | nil => rfl
            | cons a l => rw [hc] at hn; simp at hn
          simp [hn, hnil, calls]
    · rw [startWithDevice_failure env config wmbus hs] at h
      cases h

theorem map_some_eq_map_iff {α β : Type} (f : α → Option β) :
    ∀ (bs : List β) (as : List α), bs.map some = as.map f →
      bs.length = as.length ∧ ∀ b ∈ bs, ∃ a ∈ as, f a = some b := by
  intro bs
  induction bs with
  | nil => intro as h; cases as <;> simp_all
  | cons b bs ih =>
    intro as h
    cases as with
    | nil => simp at h
    | cons a as =>
      simp only [List.map_cons, List.cons.injEq] at h
      obtain ⟨hl, hm⟩ := ih as h.2
      refine ⟨by simp [hl], ?_⟩
      intro x hx
      simp only [List.mem_cons] at hx
      rcases hx with rfl | hx
      · exact ⟨a, by simp, h.1.symm⟩
      · obtain ⟨a2, ha2, hf⟩ := hm x hx
        exact ⟨a2, by simp [ha2], hf⟩

/-! ## Updates -/

theorem allMetersUpdated_iff (meters : List Meter) :
    allMetersUpdated meters = true ↔ ∀ m ∈ meters, 1 ≤ m.num_updates := by
  induction meters with
  | nil => simp [allMetersUpdated]
  | cons m rest ih =>
    unfold allMetersUpdated
    by_cases h0 : m.num_updates = 0
    · simp [Meter.numUpdates, h0]
    · simp only [Meter.numUpdates, beq_iff_eq, h0, if_false, ih, List.mem_cons, forall_eq_or_imp]
      constructor
      · intro h; exact ⟨Nat.one_le_iff_ne_zero.2 h0, h⟩
      · intro h; exact h.2

theorem stop_mem_oneshotCheck (config : Configuration) (meters : List Meter) :
    Event.stop ∈ oneshotCheck config meters ↔
      config.oneshot = true ∧ ∀ m ∈ meters, 1 ≤ m.num_updates := by
  unfold oneshotCheck
  rw [← allMetersUpdated_iff]
  cases config.oneshot <;> cases allMetersUpdated meters <;> simp

/-- An update of a meter that has the two callbacks of main.cc:308-309 calls
the printer and then the oneshot check, on the vector with the new count; all
meters keep their callbacks. -/
theorem meterUpdated_calls (config : Configuration) (meters : List Meter) (index : Nat)
    (hsub : ∀ m ∈ meters, m.subscribers = [Subscriber.print, Subscriber.oneshot])
    (hi : index < meters.length) :
    (meterUpdated config meters index).2
      = Event.print index :: oneshotCheck config (meterUpdated config meters index).1 ∧
    (meterUpdated config meters index).1.length = meters.length ∧
    ∀ m ∈ (meterUpdated config meters index).1,
      m.subscribers = [Subscriber.print, Subscriber.oneshot] := by
  unfold meterUpdated
  have hget : meters.get? index = some meters[index] := by
    simp [List.get?_eq_getElem?, hi]
  rw [hget]
  have hs : meters[index].subscribers = [Subscriber.print, Subscriber.oneshot] :=
    hsub _ (List.getElem_mem hi)
  refine ⟨by simp [hs, Subscriber.call], by simp, ?_⟩
  intro m hm
  simp only at hm
  rcases List.mem_or_eq_of_mem_set hm with hm | rfl
  · exact hsub m hm
  · exact hs

theorem updateCalls_length (config : Configuration) (updates : List Nat) :
    ∀ meters : List Meter, (updateCalls config meters updates).length = updates.length := by
  induction updates with
  | nil => intro _; rfl
  | cons i rest ih =>
    intro meters
    simp only [updateCalls, List.length_cons, add_left_inj]
    exact ih _

/-- The calls of the k-th update of a sequence of updates. -/
theorem updateCalls_getD (config : Configuration) (updates : List Nat) :
    ∀ (meters : List Meter) (k : Nat),
      (∀ m ∈ meters, m.subscribers = [Subscriber.print, Subscriber.oneshot]) →
      (∀ i ∈ updates, i < meters.length) → k < updates.length →
      (updateCalls config meters updates).getD k []
        = Event.print (updates.getD k 0)
            :: oneshotCheck config (metersAfter config meters (updates.take (k + 1))) := by
  induction updates with
  | nil => intro meters k _ _ hk; simp at hk
  | cons i rest ih =>
    intro meters k hsub hvalid hk
    obtain ⟨h1, h2, h3⟩ := meterUpdated_calls config meters i hsub (hvalid i (by simp))
    cases k with
    | zero => simpa [updateCalls, metersAfter] using h1
    | succ k =>
      have hk2 : k < rest.length := by simpa using hk
      have := ih (meterUpdated config meters i).1 k h3
        (fun j hj => by rw [h2]; exact hvalid j (by simp [hj])) hk2
      simpa [updateCalls, metersAfter] using this

/-- The meters of a run that came back from the loop: as many as configured,
each without an update and with the two callbacks. -/
theorem startUsingCommandline_meters (env : Env) (config : Configuration)
    (hrun : (startUsingCommandline env config).outcome = Outcome.returned) :
    (startUsingCommandline env config).meters.length = config.meters.length ∧
    ∀ b ∈ (startUsingCommandline env config).meters,
      b.num_updates = 0 ∧ b.subscribers = [Subscriber.print, Subscriber.oneshot] := by
  obtain ⟨hlen, hall⟩ := map_some_eq_map_iff (configuredMeter config) _ _
    (startUsingCommandline_returned env config hrun)
  refine ⟨hlen, ?_⟩
  intro b hb
  obtain ⟨m, -, hm⟩ := hall b hb
  obtain ⟨-, -, -, h0, hs⟩ := configuredMeter_some hm
  exact ⟨h0, hs⟩

/-- C1: in a run with the meters set up, an update requests `stop()` exactly
when after it every meter has `num_updates >= 1`; so with oneshot enabled the
first update after which all meters have been updated requests it and no
earlier one does.  Without oneshot, `oneshotCheck` never requests `stop()`,
whatever the counts are. -/
theorem oneshot_stops_at_first_complete_update (env : Env) (config : Configuration)
    (updates : List Nat)
    (hrun : (startUsingCommandline env config).outcome = Outcome.returned)
    (hvalid : ∀ i ∈ updates, i < config.meters.length) :
    (startUsingCommandline env config).meters.length = config.meters.length ∧
    (∀ m ∈ (startUsingCommandline env config).meters, m.num_updates = 0) ∧
    (config.oneshot = true → ∀ k, k < updates.length →
      (stopRequestedAt config (startUsingCommandline env config).meters updates k ↔
        allUpdatedAfter config (startUsingCommandline env config).meters updates k)) ∧
    (config.oneshot = true → ∀ k, k < updates.length →
      allUpdatedAfter config (startUsingCommandline env config).meters updates k →
      (∀ j, j < k →
        ¬ allUpdatedAfter config (startUsingCommandline env config).meters updates j) →
      stopRequestedAt config (startUsingCommandline env config).meters updates k ∧
      ∀ j, j < k →
        ¬ stopRequestedAt config (startUsingCommandline env config).meters updates j) ∧
    (config.oneshot = false → ∀ meters : List Meter, Event.stop ∉ oneshotCheck config meters) ∧
    (config.oneshot = false → ∀ k,
      ¬ stopRequestedAt config (startUsingCommandline env config).meters updates k) := by
  obtain ⟨hlen, hall⟩ := startUsingCommandline_meters env config hrun
  have hsub : ∀ m ∈ (startUsingCommandline env config).meters,
      m.subscribers = [Subscriber.print, Subscriber.oneshot] := fun m hm => (hall m hm).2
  have hvalid2 : ∀ i ∈ updates, i < (startUsingCommandline env config).meters.length := by
    intro i hi; rw [hlen]; exact hvalid i hi
  have key : ∀ k, k < updates.length →
      (stopRequestedAt config (startUsingCommandline env config).meters updates k ↔
        config.oneshot = true ∧
        allUpdatedAfter config (startUsingCommandline env config).meters updates k) := by
    intro k hk
    unfold stopRequestedAt allUpdatedAfter
    rw [updateCalls_getD config updates _ k hsub hvalid2 hk]
    simp only [List.mem_cons, reduceCtorEq, false_or]
    exact stop_mem_oneshotCheck config _
  refine ⟨hlen, fun m hm => (hall m hm).1, ?_, ?_, ?_, ?_⟩
  · intro ho k hk
    rw [key k hk]
    simp [ho]
  · intro ho k hk hk1 hk2
    refine ⟨(key k hk).2 ⟨ho, hk1⟩, ?_⟩
    intro j hj hstop
    exact hk2 j hj ((key j (lt_trans hj hk)).1 hstop).2
  · intro ho meters hstop
    have := ((stop_mem_oneshotCheck config meters).1 hstop).1
    rw [ho] at this; cases this
  · intro ho k hstop
    by_cases hk : k < updates.length
    · have := ((key k hk).1 hstop).1
      rw [ho] at this; cases this
    · unfold stopRequestedAt at hstop
      rw [List.getD_eq_default _ _ (by rw [updateCalls_length]; omega)] at hstop
      simp at hstop


/-- The sample oneshot run with two meters and the updates 0, 0, 1, 0: the third
update is the first to request `stop()`. -/
theorem oneshot_stops_at_first_complete_update_witness :
    stopRequestedAt oneshotConfig (startUsingCommandline sampleEnv oneshotConfig).meters
        [0, 0, 1, 0] 2 ∧
    ∀ j, j < 2 →
      ¬ stopRequestedAt oneshotConfig (startUsingCommandline sampleEnv oneshotConfig).meters
        [0, 0, 1, 0] j :=
  (oneshot_stops_at_first_complete_update sampleEnv oneshotConfig [0, 0, 1, 0]
    (by decide) (by decide)).2.2.2.1 rfl 2 (by decide)
    (by unfold allUpdatedAfter; decide)
    (by unfold allUpdatedAfter; decide)

theorem openDevice_none_iff (env : Env) (config : Configuration) :
    (openDevice env config).2 = none ↔
      (env.detectMBusDevice config.device).1 = MBusDeviceType.DEVICE_UNKNOWN := by
  unfold openDevice
  generalize env.detectMBusDevice config.device = tad
  rcases tad with ⟨t, d⟩
  cases t <;> simp

/-- C2: whatever else the command line asks for, `--version` prints the
version and exits with 0, otherwise `--license` prints the license and exits
with 0, otherwise `--help` prints the help and main ends with status 0; in all
three cases there is no fork, no configuration is loaded, no device is opened
and no meter is created. -/
theorem main_version_license_help (env : Env) (cmdline : Configuration) :
    (cmdline.version = true →
      main env cmdline
        = ⟨[Event.printf ("wmbusmeters: " ++ env.VERSION ++ "\n"),
            Event.printf (env.COMMIT ++ "\n")], [], Outcome.exited 0⟩) ∧
    (cmdline.version = false → cmdline.license = true →
      main env cmdline = ⟨[Event.putsLicense], [], Outcome.exited 0⟩) ∧
    (cmdline.version = false → cmdline.license = false → cmdline.need_help = true →
      main env cmdline
        = ⟨[Event.printf ("wmbusmeters version: " ++ env.VERSION ++ "\n"),
            Event.putsManual], [], Outcome.returned⟩) ∧
    (cmdline.version = true ∨ cmdline.license = true ∨ cmdline.need_help = true →
      (main env cmdline).exitCode = 0 ∧ (main env cmdline).meters = [] ∧
      ∀ e ∈ (main env cmdline).trace,
        e.forks = false ∧ e.loadsConfiguration = false ∧ e.opensDevice = false ∧
        e.createsMeter = false) := by
  have hv : cmdline.version = true →
      main env cmdline
        = ⟨[Event.printf ("wmbusmeters: " ++ env.VERSION ++ "\n"),
            Event.printf (env.COMMIT ++ "\n")], [], Outcome.exited 0⟩ := by
    intro h; simp [main, h, calls, exit]
  have hl : cmdline.version = false → cmdline.license = true →
      main env cmdline = ⟨[Event.putsLicense], [], Outcome.exited 0⟩ := by
    intro h1 h2; simp [main, h1, h2, calls, exit]
  have hh : cmdline.version = false → cmdline.license = false → cmdline.need_help = true →
      main env cmdline
        = ⟨[Event.printf ("wmbusmeters version: " ++ env.VERSION ++ "\n"),
            Event.putsManual], [], Outcome.returned⟩ := by
    intro h1 h2 h3; simp [main, h1, h2, h3, calls]
  refine ⟨hv, hl, hh, ?_⟩
  intro h
  cases h1 : cmdline.version with
  | true =>
    rw [hv h1]
    simp [Run.exitCode, Event.forks, Event.loadsConfiguration, Event.opensDevice,
      Event.createsMeter]
  | false =>
    cases h2 : cmdline.license with
    | true =>
      rw [hl h1 h2]
      simp [Run.exitCode, Event.forks, Event.loadsConfiguration, Event.opensDevice,
        Event.createsMeter]
    | false =>
      have h3 : cmdline.need_help = true := by
        rcases h with h | h | h
        · rw [h1] at h; cases h
        · rw [h2] at h; cases h
        · exact h
      rw [hh h1 h2 h3]
      simp [Run.exitCode, Event.forks, Event.loadsConfiguration, Event.opensDevice,
        Event.createsMeter]

/-- A command line with `--version` among other options ends with status 0. -/
theorem main_version_license_help_witness :
    (main sampleEnv versionConfig).exitCode = 0 :=
  ((main_version_license_help sampleEnv versionConfig).2.2.2 (Or.inl rfl)).1

/-- C4: when device detection reports `DEVICE_UNKNOWN`, `startUsingCommandline`
ends the process with exit code 1, daemon or not: no dongle is opened,
`setLinkModes` is not called, no meter is created, no subscriber is registered
and `waitForStop` is not entered. -/
theorem no_device_exits_1 (env : Env) (config : Configuration)
    (h : (env.detectMBusDevice config.device).1 = MBusDeviceType.DEVICE_UNKNOWN) :
    (startUsingCommandline env config).outcome = Outcome.exited 1 ∧
    (startUsingCommandline env config).meters = [] ∧
    ∀ e ∈ (startUsingCommandline env config).trace,
      e.opensDevice = false ∧ e.setsLinkModes = false ∧ e.createsMeter = false ∧
      e.registersSubscriber = false ∧ e.entersLoop = false := by
  have hnone := (openDevice_none_iff env config).2 h
  have hopen : ∀ e ∈ (openDevice env config).1, e.opensDevice = false := by
    unfold openDevice
    simp only [h]
    split_ifs <;> simp [Event.opensDevice]
  obtain ⟨hm, ho⟩ := setupLogfile_cases env config
  have hq := setupLogfile_quiet env config
  unfold startUsingCommandline
  simp only [hnone]
  rcases ho with ho | ho
  · rw [andThen_of_returned _ ho]
    refine ⟨by simp [calls, exit], by simp [calls, exit], ?_⟩
    intro e he
    simp only [calls, exit, andThen_returned, List.mem_append, List.append_nil,
      List.not_mem_nil, or_false] at he
    rcases he with he | he | he
    · obtain ⟨a, b, -, c, d, f, -⟩ := hq e he
      exact ⟨a, b, c, d, f⟩
    · obtain ⟨a, b, -, c, d, f, -⟩ := announceConfiguration_quiet env config e he
      exact ⟨a, b, c, d, f⟩
    · obtain ⟨b, -, c, d, f, -⟩ := openDevice_quiet env config e he
      exact ⟨hopen e he, b, c, d, f⟩
  · rw [andThen_of_exited _ ho]
    refine ⟨ho, hm, ?_⟩
    intro e he
    obtain ⟨a, b, -, c, d, f, -⟩ := hq e he
    exact ⟨a, b, c, d, f⟩

/-- The sample daemon configuration without a device ends with exit code 1. -/
theorem no_device_exits_1_witness :
    (startUsingCommandline noDeviceEnv { oneshotConfig with daemon := true }).outcome
      = Outcome.exited 1 :=
  (no_device_exits_1 noDeviceEnv { oneshotConfig with daemon := true } rfl).1

/-- C3, the code at two concrete inputs with `list_shell_envs` set.  Without a
wM-Bus device the process exits with code 1 and prints nothing; with a device
and no configured meter nothing is listed and the run enters the loop. -/
theorem shellenvs_without_device_or_meter :
    (shellenvsConfig.list_shell_envs = true ∧
      (startUsingCommandline noDeviceEnv shellenvsConfig).outcome = Outcome.exited 1 ∧
      (startUsingCommandline noDeviceEnv shellenvsConfig).trace.filter Event.printsOutput = []) ∧
    (shellenvsNoMeterConfig.list_shell_envs = true ∧
      (startUsingCommandline sampleEnv shellenvsNoMeterConfig).outcome = Outcome.returned ∧
      Event.waitForStop ∈ (startUsingCommandline sampleEnv shellenvsNoMeterConfig).trace ∧
      (startUsingCommandline sampleEnv shellenvsNoMeterConfig).trace.filter
        Event.printsOutput = []) := by
  decide

/-- C3 as amended: with `list_shell_envs` set, when the log file set-up does
not fail, a dongle is opened, the link mode calculation succeeds and the first
configured meter has a type of the catalog, `startUsingCommandline` creates
that first meter only, prints the header line and then the name of each
environment variable that `printMeter` provides for it, and exits with code 0;
no subscriber is registered and the loop is not entered. -/
theorem shellenvs_lists_first_meter (env : Env) (config : Configuration)
    (wmbus : WMBus) (m : MeterInfo) (rest : List MeterInfo) (row : MeterRow)
    (hlist : config.list_shell_envs = true)
    (hlog : (setupLogfile env config).outcome = Outcome.returned)
    (hdev : (openDevice env config).2 = some wmbus)
    (hcalc : (env.calculateLinkModes config wmbus).type = LinkModeCalculationResultType.Success)
    (hmeters : config.meters = m :: rest)
    (hrow : meterRow m = some row) :
    (startUsingCommandline env config).outcome = Outcome.exited 0 ∧
    (startUsingCommandline env config).meters
      = [(newMeter row m).addConversions config.conversions] ∧
    ∃ before : List Event,
      (startUsingCommandline env config).trace
        = before
          ++ Event.printf ("Environment variables provided to shell for meter "
              ++ m.type ++ ":\n")
          :: (env.printMeterEnvs ((newMeter row m).addConversions config.conversions)).map
              (fun e => Event.printf (envKey e ++ "\n")) ∧
      ∀ e ∈ before, e.registersSubscriber = false ∧ e.entersLoop = false := by
  obtain ⟨pre, hpre, -, hsplit⟩ := startUsingCommandline_split env config
  rcases hsplit with ⟨-, hbad | hbad⟩ | ⟨w, hw, -, -, heq⟩
  · rw [hlog] at hbad; cases hbad
  · rw [hdev] at hbad; cases hbad
  · rw [hdev] at hw
    cases hw
    have hsetup : setupMeters env config
        = ⟨[Event.createMeter row.cname m,
            Event.verbose ("(wmbusmeters) configured \"" ++ m.name ++ "\" \"" ++ row.mname
              ++ "\" \"" ++ m.id ++ "\" " ++ keymsg m ++ "\n"),
            Event.addConversions 0 config.conversions,
            Event.printMeter 0,
            Event.printf ("Environment variables provided to shell for meter "
              ++ m.type ++ ":\n")]
            ++ (env.printMeterEnvs ((newMeter row m).addConversions config.conversions)).map
                (fun e => Event.printf (envKey e ++ "\n")),
           [(newMeter row m).addConversions config.conversions], Outcome.exited 0⟩ := by
      unfold setupMeters
      rw [hmeters]
      simp only [List.length_cons, gt_iff_lt, Nat.zero_lt_succ, if_true]
      unfold configureMeters
      have hlast : ∀ (f : Meter → Meter) (b : Meter), List.modifyLast f [b] = [f b] :=
        fun f b => List.modifyLast_append_one f b []
      simp [hrow, hlist, calls, exit, hlast]
    rw [heq, startWithDevice_success env config wmbus hcalc, hsetup]
    refine ⟨rfl, rfl, pre ++ [Event.calculateLinkModes wmbus,
      Event.setLinkModes config.listen_to_link_modes,
      Event.getLinkModes,
      Event.verbose ("(config) listen to link modes: "
        ++ env.getLinkModesHr wmbus config.listen_to_link_modes ++ "\n"),
      Event.newPrinter,
      Event.createMeter row.cname m,
      Event.verbose ("(wmbusmeters) configured \"" ++ m.name ++ "\" \"" ++ row.mname
        ++ "\" \"" ++ m.id ++ "\" " ++ keymsg m ++ "\n"),
      Event.addConversions 0 config.conversions,
      Event.printMeter 0], by simp, ?_⟩
    intro e he
    simp only [List.mem_append, List.mem_cons, List.mem_singleton, List.not_mem_nil,
      or_false] at he
    rcases he with he | rfl | rfl | rfl | rfl | rfl | rfl | rfl | rfl | rfl
    · exact ⟨(hpre e he).2.2.2.1, (hpre e he).2.2.2.2.1⟩
    all_goals exact ⟨rfl, rfl⟩

/-- The sample run with `list_shell_envs` and two meters exits with code 0. -/
theorem shellenvs_lists_first_meter_witness :
    (startUsingCommandline sampleEnv shellenvsConfig).outcome = Outcome.exited 0 :=
  (shellenvs_lists_first_meter sampleEnv shellenvsConfig
    ⟨MBusDeviceType.DEVICE_SIMULATOR, "simulation_t1.txt"⟩ kitchen [cellar]
    ⟨"multical21", [LinkModeBit.C1_bit], MeterMedia.Water, MeterType.MULTICAL21,
      MeterConstructor.Multical21⟩
    rfl (by decide) (by decide) (by decide) rfl (by decide)).1

/-- C5: `setLinkModes` is only called after `calculateLinkModes` gave
`Success` for the opened dongle, and then with exactly
`config->listen_to_link_modes`; on any other result the run ends in the fatal
error with the message of the calculation, before a meter is created, a
subscriber registered or the loop entered. -/
theorem link_modes_set_only_after_success (env : Env) (config : Configuration) :
    (∀ lms, Event.setLinkModes lms ∈ (startUsingCommandline env config).trace →
      lms = config.listen_to_link_modes ∧
      ∃ wmbus, (openDevice env config).2 = some wmbus ∧
        (env.calculateLinkModes config wmbus).type = LinkModeCalculationResultType.Success) ∧
    (∀ wmbus, Event.calculateLinkModes wmbus ∈ (startUsingCommandline env config).trace →
      (openDevice env config).2 = some wmbus ∧
      ((env.calculateLinkModes config wmbus).type = LinkModeCalculationResultType.Success →
        Event.setLinkModes config.listen_to_link_modes
          ∈ (startUsingCommandline env config).trace) ∧
      ((env.calculateLinkModes config wmbus).type ≠ LinkModeCalculationResultType.Success →
        (startUsingCommandline env config).outcome = Outcome.exited 1 ∧
        (startUsingCommandline env config).trace.getLast?
          = some (Event.error ((env.calculateLinkModes config wmbus).msg ++ "\n")) ∧
        (startUsingCommandline env config).meters = [] ∧
        ∀ e ∈ (startUsingCommandline env config).trace,
          e.setsLinkModes = false ∧ e.createsMeter = false ∧
          e.registersSubscriber = false ∧ e.entersLoop = false)) := by
  obtain ⟨pre, hpre, -, hsplit⟩ := startUsingCommandline_split env config
  rcases hsplit with ⟨heq, -⟩ | ⟨wmbus, hdev, -, -, heq⟩
  · rw [heq]
    constructor
    · intro lms hmem
      have := (hpre _ hmem).1
      simp [Event.setsLinkModes] at this
    · intro w hmem
      have := (hpre _ hmem).2.1
      simp [Event.calculatesLinkModes] at this
  · rw [heq]
    by_cases hs : (env.calculateLinkModes config wmbus).type
        = LinkModeCalculationResultType.Success
    · rw [startWithDevice_success env config wmbus hs]
      have hrest := setupMeters_runLoop_quiet env config wmbus
      constructor
      · intro lms hmem
        simp only [List.mem_append, List.mem_cons, List.mem_singleton, List.not_mem_nil,
          reduceCtorEq, or_false, false_or, Event.setLinkModes.injEq] at hmem
        rcases hmem with hmem | hmem | hmem
        · have := (hpre _ hmem).1
          simp [Event.setsLinkModes] at this
        · exact ⟨hmem, wmbus, hdev, hs⟩
        · have := (hrest _ hmem).2.1
          simp [Event.setsLinkModes] at this
      · intro w hmem
        simp only [List.mem_append, List.mem_cons, List.mem_singleton, List.not_mem_nil,
          reduceCtorEq, or_false, false_or, Event.calculateLinkModes.injEq] at hmem
        have hw : w = wmbus := by
          rcases hmem with hmem | hmem | hmem
          · have := (hpre _ hmem).2.1
            simp [Event.calculatesLinkModes] at this
          · exact hmem
          · have := (hrest _ hmem).2.2.1
            simp [Event.calculatesLinkModes] at this
        subst hw
        refine ⟨hdev, ?_, fun hne => absurd hs hne⟩
        intro _
        simp
    · rw [startWithDevice_failure env config wmbus hs]
      constructor
      · intro lms hmem
        simp only [List.mem_append, List.mem_cons, List.mem_singleton, List.not_mem_nil,
          reduceCtorEq, or_false, false_or] at hmem
        have := (hpre _ hmem).1
        simp [Event.setsLinkModes] at this
      · intro w hmem
        simp only [List.mem_append, List.mem_cons, List.mem_singleton, List.not_mem_nil,
          reduceCtorEq, or_false, false_or, Event.calculateLinkModes.injEq] at hmem
        have hw : w = wmbus := by
          rcases hmem with hmem | hmem
          · have := (hpre _ hmem).2.1
            simp [Event.calculatesLinkModes] at this
          · exact hmem
        subst hw
        refine ⟨hdev, fun h => absurd h hs, fun _ => ⟨rfl, ?_, rfl, ?_⟩⟩
        · simp [List.getLast?_append]
        · intro e he
          simp only [List.mem_append, List.mem_cons, List.mem_singleton, List.not_mem_nil,
            or_false] at he
          rcases he with he | rfl | rfl
          · obtain ⟨a, -, c, d, f, -⟩ := hpre e he
            exact ⟨a, c, d, f⟩
          · simp [Event.setsLinkModes, Event.createsMeter, Event.registersSubscriber,
              Event.entersLoop]
          · simp [Event.setsLinkModes, Event.createsMeter, Event.registersSubscriber,
              Event.entersLoop]

/-- The sample run with a dongle that cannot listen to the link modes ends in
the fatal error. -/
theorem link_modes_set_only_after_success_witness :
    (startUsingCommandline badLinkModesEnv oneshotConfig).outcome = Outcome.exited 1 :=
  (((link_modes_set_only_after_success badLinkModesEnv oneshotConfig).2
      ⟨MBusDeviceType.DEVICE_SIMULATOR, "simulation_t1.txt"⟩ (by decide)).2.2
      (by decide)).1

/-- C6: the command line given to `openRTLWMBUS`.  With P being `/usr/bin/` in
daemon mode and empty otherwise: for an empty `device_extra` it is
P `rtl_sdr -f 868.95M -s 1.6e6 - 2>/dev/null | ` P `rtl_wmbus`; for a frequency
the same with the frequency in place of 868.95M; any other non-empty
`device_extra` is the command line itself, unchanged. -/
theorem rtlwmbus_command (env : Env) (config : Configuration) :
    (∀ c, Event.openRTLWMBUS c ∈ (startUsingCommandline env config).trace →
      c = rtlwmbusCommand env config) ∧
    ((setupLogfile env config).outcome = Outcome.returned →
      (env.detectMBusDevice config.device).1 = MBusDeviceType.DEVICE_RTLWMBUS →
      Event.openRTLWMBUS (rtlwmbusCommand env config)
        ∈ (startUsingCommandline env config).trace) ∧
    (config.device_extra = "" → env.isFrequency "" = false →
      rtlwmbusCommand env config
        = (if config.daemon then "/usr/bin/" else "")
          ++ "rtl_sdr -f 868.95M -s 1.6e6 - 2>/dev/null | "
          ++ (if config.daemon then "/usr/bin/" else "") ++ "rtl_wmbus") ∧
    (env.isFrequency config.device_extra = true →
      rtlwmbusCommand env config
        = (if config.daemon then "/usr/bin/" else "")
          ++ "rtl_sdr -f " ++ config.device_extra ++ " -s 1.6e6 - 2>/dev/null | "
          ++ (if config.daemon then "/usr/bin/" else "") ++ "rtl_wmbus") ∧
    (config.device_extra ≠ "" → env.isFrequency config.device_extra = false →
      rtlwmbusCommand env config = config.device_extra) ∧
    (config.device_extra = "" → env.isFrequency "" = false → config.daemon = false →
      rtlwmbusCommand env config = "rtl_sdr -f 868.95M -s 1.6e6 - 2>/dev/null | rtl_wmbus") := by
  refine ⟨?_, ?_, ?_, ?_, ?_, ?_⟩
  · intro c hmem
    obtain ⟨pre, -, hopen, hsplit⟩ := startUsingCommandline_split env config
    have hin : Event.openRTLWMBUS c ∈ (openDevice env config).1 := by
      rcases hsplit with ⟨heq, -⟩ | ⟨wmbus, -, -, -, heq⟩
      · rw [heq] at hmem
        exact (hopen _ hmem rfl).2
      · rw [heq] at hmem
        simp only [List.mem_append] at hmem
        rcases hmem with hmem | hmem
        · exact (hopen _ hmem rfl).2
        · by_cases hs : (env.calculateLinkModes config wmbus).type
              = LinkModeCalculationResultType.Success
          · rw [startWithDevice_success env config wmbus hs] at hmem
            simp only [List.mem_append, List.mem_cons, List.mem_singleton, List.not_mem_nil,
              reduceCtorEq, or_false, false_or] at hmem
            have := (setupMeters_runLoop_quiet env config wmbus _ hmem).1
            simp [Event.opensDevice] at this
          · rw [startWithDevice_failure env config wmbus hs] at hmem
            simp at hmem
    revert hin
    unfold openDevice
    generalize env.detectMBusDevice config.device = tad
    rcases tad with ⟨t, d⟩
    cases t <;> simp
  · intro ho hdev
    have hin : Event.openRTLWMBUS (rtlwmbusCommand env config) ∈ (openDevice env config).1 := by
      unfold openDevice
      simp [hdev]
    obtain ⟨pre, -, -, hsplit⟩ := startUsingCommandline_split env config
    rcases hsplit with ⟨-, hbad | hbad⟩ | ⟨wmbus, -, -, hpre, heq⟩
    · rw [ho] at hbad; cases hbad
    · rw [(openDevice_none_iff env config).1 hbad] at hdev; cases hdev
    · rw [heq, hpre]
      simp only [List.mem_append]
      exact Or.inl (Or.inr hin)
  · intro he hf
    unfold rtlwmbusCommand
    rw [he]
    simp only [hf]
    cases config.daemon <;> decide
  · intro hf
    unfold rtlwmbusCommand
    simp [hf]
  · intro he hf
    unfold rtlwmbusCommand
    simp [hf, he]
  · intro he hf hd
    unfold rtlwmbusCommand
    rw [he, hd]
    simp only [hf]
    decide

/-- Plain `rtlwmbus` outside daemon mode gives the command line of the help text. -/
theorem rtlwmbus_command_witness :
    rtlwmbusCommand rtlwmbusEnv { device := "rtlwmbus" }
      = "rtl_sdr -f 868.95M -s 1.6e6 - 2>/dev/null | rtl_wmbus" :=
  (rtlwmbus_command rtlwmbusEnv { device := "rtlwmbus" }).2.2.2.2.2 rfl rfl rfl

/-! ## The daemon start -/

theorem startUsingCommandline_no_pid (env : Env) (config : Configuration) :
    ∀ e ∈ (startUsingCommandline env config).trace, e.writesPidFile = false := by
  obtain ⟨pre, hpre, -, hsplit⟩ := startUsingCommandline_split env config
  rcases hsplit with ⟨heq, -⟩ | ⟨wmbus, -, -, -, heq⟩
  · rw [heq]
    intro e he
    exact (hpre e he).2.2.2.2.2.1
  · rw [heq]
    intro e he
    simp only [List.mem_append] at he
    rcases he with he | he
    · exact (hpre e he).2.2.2.2.2.1
    · by_cases hs : (env.calculateLinkModes config wmbus).type
          = LinkModeCalculationResultType.Success
      · rw [startWithDevice_success env config wmbus hs] at he
        simp only [List.mem_append, List.mem_cons, List.mem_singleton, List.not_mem_nil,
          or_false] at he
        rcases he with (rfl | rfl | rfl | rfl | rfl) | he
        · rfl
        · rfl
        · rfl
        · rfl
        · rfl
        · exact (setupMeters_runLoop_quiet env config wmbus e he).2.2.2.1
      · rw [startWithDevice_failure env config wmbus hs] at he
        simp only [List.mem_cons, List.mem_singleton, List.not_mem_nil, or_false] at he
        rcases he with rfl | rfl <;> rfl

theorem startUsingConfigFiles_no_pid (env : Env) (root : String) (is_daemon : Bool) :
    ∀ e ∈ (startUsingConfigFiles env root is_daemon).trace, e.writesPidFile = false := by
  unfold startUsingConfigFiles
  apply forall_trace_andThen
  · simp [calls, Event.writesPidFile]
  · intro _
    exact startUsingCommandline_no_pid env _

theorem writePid_precheck (env : Env) (pid_file : String) :
    writePid env 0 pid_file 0
      = if env.fopen pid_file 0 then
          ⟨[Event.fopen pid_file "w" true, Event.fclose pid_file], [], Outcome.returned⟩
        else
          ⟨[Event.fopen pid_file "w" false,
            Event.error ("Could not open pid file \"" ++ pid_file ++ "\" for writing!\n")], [],
           Outcome.exited 1⟩ := by
  unfold writePid
  cases env.fopen pid_file 0 <;> simp [calls, error]

theorem pid_text_length_ne_zero (pid : Int) :
    (((toString pid ++ "\n").length : Nat) : Int) ≠ 0 := by
  have h : (toString pid ++ "\n").length = (toString pid).length + 1 := by
    rw [String.length_append]; rfl
  rw [h]
  omega

/-- What `writePid` does for a positive pid. -/
theorem writePid_positive (env : Env) (call : Nat) (pid_file : String) (pid : Int)
    (hpid : 0 < pid) :
    writePid env call pid_file pid
      = if env.fopen pid_file call then
          ⟨[Event.fopen pid_file "w" true,
            Event.fprintf pid_file (toString pid ++ "\n")
              (if env.fprintf_error then -1 else ((toString pid ++ "\n").length : Int)),
            Event.notice ("(wmbusmeters) started " ++ pid_file ++ "\n"),
            Event.fclose pid_file], [], Outcome.returned⟩
        else
          ⟨[Event.fopen pid_file "w" false,
            Event.error ("Could not open pid file \"" ++ pid_file ++ "\" for writing!\n")], [],
           Outcome.exited 1⟩ := by
  unfold writePid
  have hlen := pid_text_length_ne_zero pid
  dsimp only
  generalize (toString pid ++ "\n").length = len at hlen ⊢
  cases hf : env.fopen pid_file call
  · simp [calls, error]
  · cases he : env.fprintf_error
    · simp [calls, error, hpid, hlen]
    · simp [calls, error, hpid]


theorem daemonChild_no_pid (env : Env) :
    ∀ e ∈ (daemonChild env).trace, e.writesPidFile = false := by
  unfold daemonChild
  apply forall_trace_andThen
  · simp [calls, Event.writesPidFile]
  intro _
  apply forall_trace_andThen
  · split_ifs <;> simp [calls, exit]
  intro _
  apply forall_trace_andThen
  · simp [calls, Event.writesPidFile]
  intro _
  apply forall_trace_andThen
  · split_ifs <;> simp [calls, error, Event.writesPidFile]
  intro _
  apply forall_trace_andThen
  · simp [calls, Event.writesPidFile]
  intro _
  exact startUsingConfigFiles_no_pid env "" true

/-- C7, the code at a concrete input: the pid file opens before the fork,
`fork` gives the pid 4242, and the pid file does not open again.  The parent
raises the fatal error: it does not write the pid and does not return. -/
theorem parent_does_not_rewrite_when_reopen_fails :
    reopenFailsEnv.fork = 4242 ∧
    (startDaemon reopenFailsEnv "/run/wmbusmeters.pid").trace
      = [Event.setlogmask, Event.openlog "wmbusmetersd", Event.enableSyslog,
         Event.fopen "/run/wmbusmeters.pid" "w" true, Event.fclose "/run/wmbusmeters.pid",
         Event.fork 4242,
         Event.fopen "/run/wmbusmeters.pid" "w" false,
         Event.error "Could not open pid file \"/run/wmbusmeters.pid\" for writing!\n"] ∧
    (startDaemon reopenFailsEnv "/run/wmbusmeters.pid").outcome = Outcome.exited 1 := by
  decide

/-- C7 as amended: the parent opens the pid file for writing before the fork;
when that open fails, the fatal error is raised and `fork` is not called.
After it, with a positive pid the parent opens the file again: given the stream
and a write that reports no error, it writes exactly the pid and a newline and
returns, without any call of the meter runtime; when this open fails, the
fatal error is raised and nothing is written.  In the child (pid 0) nothing
after the fork writes the pid file; with a negative pid the fatal error is
raised and no pid is written. -/
theorem pid_file_written_by_parent_only (env : Env) (pid_file : String) :
    (env.fopen pid_file 0 = false →
      (startDaemon env pid_file).trace
        = [Event.setlogmask, Event.openlog "wmbusmetersd", Event.enableSyslog,
           Event.fopen pid_file "w" false,
           Event.error ("Could not open pid file \"" ++ pid_file ++ "\" for writing!\n")] ∧
      (startDaemon env pid_file).outcome = Outcome.exited 1) ∧
    (env.fopen pid_file 0 = true →
      ∃ post : List Event,
        (startDaemon env pid_file).trace
          = [Event.setlogmask, Event.openlog "wmbusmetersd", Event.enableSyslog,
             Event.fopen pid_file "w" true, Event.fclose pid_file, Event.fork env.fork]
            ++ post ∧
        (0 < env.fork →
          (env.fopen pid_file 1 = true → env.fprintf_error = false →
            post = [Event.fopen pid_file "w" true,
                    Event.fprintf pid_file (toString env.fork ++ "\n")
                      ((toString env.fork ++ "\n").length : Int),
                    Event.notice ("(wmbusmeters) started " ++ pid_file ++ "\n"),
                    Event.fclose pid_file] ∧
            (startDaemon env pid_file).outcome = Outcome.returned ∧
            (startDaemon env pid_file).meters = [] ∧
            ∀ e ∈ (startDaemon env pid_file).trace, e.startsRuntime = false) ∧
          (env.fopen pid_file 1 = false →
            post = [Event.fopen pid_file "w" false,
                    Event.error ("Could not open pid file \"" ++ pid_file
                      ++ "\" for writing!\n")] ∧
            (startDaemon env pid_file).outcome = Outcome.exited 1 ∧
            ∀ e ∈ (startDaemon env pid_file).trace, e.startsRuntime = false)) ∧
        (env.fork = 0 → ∀ e ∈ post, e.writesPidFile = false) ∧
        (env.fork < 0 →
          post = [Event.error "Could not fork.\n"] ∧
          (startDaemon env pid_file).outcome = Outcome.exited 1 ∧
          ∀ e ∈ (startDaemon env pid_file).trace, ∀ f t r, e ≠ Event.fprintf f t r)) := by
  constructor
  · intro hf0
    unfold startDaemon
    rw [writePid_precheck]
    simp [hf0, calls]
  intro hf0
  unfold startDaemon
  rw [writePid_precheck]
  simp only [hf0, if_true, calls, andThen_returned]
  rcases lt_trichotomy env.fork 0 with hneg | hz | hpos
  · have h1 : ¬ (0 < env.fork) := by omega
    have h2 : env.fork ≠ 0 := by omega
    refine ⟨[Event.error "Could not fork.\n"], by simp [hneg, error], fun h => absurd h h1,
      fun h => absurd h h2, fun _ => ⟨rfl, by simp [hneg, error], ?_⟩⟩
    simp [hneg, error]
  · have h1 : ¬ (0 < env.fork) := by omega
    have h2 : ¬ (env.fork < 0) := by omega
    have h3 : ¬ (env.fork > 0) := by omega
    refine ⟨(daemonChild env).trace, by simp [h2, h3], fun h => absurd h h1,
      fun _ => daemonChild_no_pid env, fun h => absurd h h2⟩
  · have h1 : env.fork ≠ 0 := by omega
    have h2 : ¬ (env.fork < 0) := by omega
    have h3 : env.fork > 0 := hpos
    refine ⟨(writePid env 1 pid_file env.fork).trace, by simp [h2, h3], fun _ => ?_,
      fun h => absurd h h1, fun h => absurd h h2⟩
    simp only [h2, h3, if_false, if_true, andThen_returned, List.append_nil, List.nil_append]
    rw [writePid_positive env 1 pid_file env.fork hpos]
    constructor
    · intro hf1 hfe
      simp [hf1, hfe, Event.startsRuntime, Event.loadsConfiguration, Event.opensDevice,
        Event.setsLinkModes, Event.createsMeter, Event.registersSubscriber, Event.entersLoop]
    · intro hf1
      simp [hf1, Event.startsRuntime, Event.loadsConfiguration, Event.opensDevice,
        Event.setsLinkModes, Event.createsMeter, Event.registersSubscriber, Event.entersLoop]

/-- The sample daemon start in the parent, where `fork` gave the pid 4242. -/
theorem pid_file_written_by_parent_only_witness :
    ∃ post : List Event,
      (startDaemon sampleEnv "/run/wmbusmeters.pid").trace
        = [Event.setlogmask, Event.openlog "wmbusmetersd", Event.enableSyslog,
           Event.fopen "/run/wmbusmeters.pid" "w" true, Event.fclose "/run/wmbusmeters.pid",
           Event.fork 4242] ++ post ∧
      post = [Event.fopen "/run/wmbusmeters.pid" "w" true,
              Event.fprintf "/run/wmbusmeters.pid" "4242\n" 5,
              Event.notice "(wmbusmeters) started /run/wmbusmeters.pid\n",
              Event.fclose "/run/wmbusmeters.pid"] :=
  match (pid_file_written_by_parent_only sampleEnv "/run/wmbusmeters.pid").2 rfl with
  | ⟨post, h1, h2, _, _⟩ => ⟨post, h1, ((h2 (by decide)).1 rfl rfl).1⟩

/-- C8: the code at the failing input.  The pid file opens, the write of pid
4242 reports an error (`fprintf` gives -1), and `writePid` does not raise the
fatal error: it goes on to report the daemon as started, closes the file and
returns. -/
theorem writePid_ignores_failed_write :
    writePid failedWriteEnv 1 "/run/wmbusmeters.pid" 4242
      = ⟨[Event.fopen "/run/wmbusmeters.pid" "w" true,
          Event.fprintf "/run/wmbusmeters.pid" "4242\n" (-1),
          Event.notice "(wmbusmeters) started /run/wmbusmeters.pid\n",
          Event.fclose "/run/wmbusmeters.pid"], [], Outcome.returned⟩ := by
  decide

/-! ## Registered meters and configured meters -/

theorem toMeterName_row : ∀ row ∈ LIST_OF_METERS, toMeterName row.type = row.mname := by
  decide

/-- A string that names a family is the wire name of its tag. -/
theorem toMeterName_toMeterType (type : String)
    (h : toMeterType type ≠ MeterType.UNKNOWN) : toMeterName (toMeterType type) = type := by
  unfold toMeterType at h ⊢
  cases hf : LIST_OF_METERS.find? (fun row => row.mname == type) with
  | none => simp [hf] at h
  | some row =>
    simp only [hf]
    have h1 := List.find?_some hf
    have h2 := List.mem_of_find?_eq_some hf
    rw [toMeterName_row row h2]
    simpa using h1

theorem meterRow_known {m : MeterInfo} {row : MeterRow} (h : meterRow m = some row) :
    toMeterType m.type ≠ MeterType.UNKNOWN := by
  have h2 := List.mem_of_find?_eq_some h
  rw [← meterRow_type h]
  have hall : ∀ r ∈ LIST_OF_METERS, r.type ≠ MeterType.UNKNOWN := by decide
  exact hall row h2

theorem configuredMeter_known {config : Configuration} {m : MeterInfo} {b : Meter}
    (h : configuredMeter config m = some b) : toMeterType m.type ≠ MeterType.UNKNOWN := by
  unfold configuredMeter at h
  cases hrow : meterRow m with
  | none => simp [hrow] at h
  | some row => exact meterRow_known hrow

theorem map_of_map_some {α β γ : Type} (f : α → Option β) (g : β → γ) (h : α → γ)
    (hfg : ∀ a b, f a = some b → g b = h a) :
    ∀ (bs : List β) (as : List α), bs.map some = as.map f → bs.map g = as.map h := by
  intro bs
  induction bs with
  | nil => intro as hm; cases as <;> simp_all
  | cons b bs ih =>
    intro as hm
    cases as with
    | nil => simp at hm
    | cons a as =>
      simp only [List.map_cons, List.cons.injEq] at hm ⊢
      exact ⟨hfg a b hm.1.symm, ih as hm.2⟩

/-- C9, the code at a concrete input: a configuration that names the same
meter twice gets two runtime meters with the same family and id. -/
theorem duplicate_meters_both_registered :
    (startUsingCommandline sampleEnv duplicateConfig).outcome = Outcome.returned ∧
    (startUsingCommandline sampleEnv duplicateConfig).meters.map Meter.familyAndId
      = [(MeterType.MULTICAL21, "76348799"), (MeterType.MULTICAL21, "76348799")] ∧
    ¬ ((startUsingCommandline sampleEnv duplicateConfig).meters.map Meter.familyAndId).Nodup := by
  decide

/-- C9 as amended: `startUsingCommandline` makes no duplicate check.  When the
set-up completes, the runtime meters are the configured entries, one for one
and in order, each with the family of its type and with its id; so no two
runtime meters have the same (family, id) exactly when no two configured
entries have the same type and id. -/
theorem registered_meters_mirror_configuration (env : Env) (config : Configuration)
    (hrun : (startUsingCommandline env config).outcome = Outcome.returned) :
    (startUsingCommandline env config).meters.map Meter.familyAndId
      = config.meters.map (fun m => (toMeterType m.type, m.id)) ∧
    (((startUsingCommandline env config).meters.map Meter.familyAndId).Nodup ↔
      (config.meters.map (fun m => (m.type, m.id))).Nodup) := by
  have hmap := startUsingCommandline_returned env config hrun
  have h1 : (startUsingCommandline env config).meters.map Meter.familyAndId
      = config.meters.map (fun m => (toMeterType m.type, m.id)) := by
    apply map_of_map_some (configuredMeter config) _ _ _ _ _ hmap
    intro m b hb
    obtain ⟨hi, ht, -⟩ := configuredMeter_some hb
    simp [Meter.familyAndId, ht, hi]
  refine ⟨h1, ?_⟩
  rw [h1]
  have hknown : ∀ m ∈ config.meters, toMeterType m.type ≠ MeterType.UNKNOWN := by
    intro m hm
    have hmem : configuredMeter config m ∈ config.meters.map (configuredMeter config) :=
      List.mem_map_of_mem _ hm
    rw [← hmap] at hmem
    obtain ⟨b, -, hb⟩ := List.mem_map.1 hmem
    exact configuredMeter_known hb.symm
  have hcomp : config.meters.map (fun m => (toMeterType m.type, m.id))
      = (config.meters.map (fun m => (m.type, m.id))).map
          (fun p => (toMeterType p.1, p.2)) := by
    simp [List.map_map, Function.comp_def]
  rw [hcomp]
  constructor
  · exact List.Nodup.of_map _
  · intro hnd
    apply List.Nodup.map_on _ hnd
    intro p hp q hq hpq
    obtain ⟨m, hm, rfl⟩ := List.mem_map.1 hp
    obtain ⟨n, hn, rfl⟩ := List.mem_map.1 hq
    simp only [Prod.mk.injEq] at hpq ⊢
    refine ⟨?_, hpq.2⟩
    rw [← toMeterName_toMeterType m.type (hknown m hm),
      ← toMeterName_toMeterType n.type (hknown n hn), hpq.1]

/-- The sample run with two different meters. -/
theorem registered_meters_mirror_configuration_witness :
    (startUsingCommandline sampleEnv oneshotConfig).meters.map Meter.familyAndId
      = [(MeterType.MULTICAL21, "76348799"), (MeterType.VARIO451, "12345678")] :=
  (registered_meters_mirror_configuration sampleEnv oneshotConfig (by decide)).1

/-- C10, the code at two concrete inputs with two configured meters.  With
`list_shell_envs` set the process exits at the first meter before any callback
is registered on it, and the second meter is not created; without a wM-Bus
device no meter is created at all. -/
theorem configured_meter_without_subscribers :
    (shellenvsConfig.meters = [kitchen, cellar] ∧
      (startUsingCommandline sampleEnv shellenvsConfig).meters.map Meter.info = [kitchen] ∧
      (startUsingCommandline sampleEnv shellenvsConfig).meters.map Meter.subscribers = [[]] ∧
      (startUsingCommandline sampleEnv shellenvsConfig).trace.filter
        Event.registersSubscriber = []) ∧
    (oneshotConfig.meters = [kitchen, cellar] ∧
      (startUsingCommandline noDeviceEnv oneshotConfig).meters = [] ∧
      (startUsingCommandline noDeviceEnv oneshotConfig).trace.filter
        Event.registersSubscriber = []) := by
  decide

/-- C10 as amended: in a run whose set-up completes, every configured meter has exactly
two update subscribers, first the printer and then the oneshot check.  So at
every update the reading is printed first, and a `stop()` for that update can
only come after it. -/
theorem subscribers_print_then_oneshot (env : Env) (config : Configuration)
    (hrun : (startUsingCommandline env config).outcome = Outcome.returned) :
    (startUsingCommandline env config).meters.length = config.meters.length ∧
    (∀ b ∈ (startUsingCommandline env config).meters,
      b.subscribers = [Subscriber.print, Subscriber.oneshot]) ∧
    (∀ updates : List Nat, (∀ i ∈ updates, i < config.meters.length) →
      ∀ k, k < updates.length →
        (updateCalls config (startUsingCommandline env config).meters updates).getD k []
          = Event.print (updates.getD k 0)
              :: oneshotCheck config
                  (metersAfter config (startUsingCommandline env config).meters
                    (updates.take (k + 1)))) ∧
    (∀ updates : List Nat, (∀ i ∈ updates, i < config.meters.length) →
      ∀ k, k < updates.length →
        Event.stop
          ∈ (updateCalls config (startUsingCommandline env config).meters updates).getD k [] →
        ((updateCalls config (startUsingCommandline env config).meters updates).getD k []).indexOf
            (Event.print (updates.getD k 0))
          < ((updateCalls config (startUsingCommandline env config).meters updates).getD k
              []).indexOf Event.stop) := by
  obtain ⟨hlen, hall⟩ := startUsingCommandline_meters env config hrun
  have hsub : ∀ m ∈ (startUsingCommandline env config).meters,
      m.subscribers = [Subscriber.print, Subscriber.oneshot] := fun m hm => (hall m hm).2
  have key : ∀ updates : List Nat, (∀ i ∈ updates, i < config.meters.length) →
      ∀ k, k < updates.length →
        (updateCalls config (startUsingCommandline env config).meters updates).getD k []
          = Event.print (updates.getD k 0)
              :: oneshotCheck config
                  (metersAfter config (startUsingCommandline env config).meters
                    (updates.take (k + 1))) := by
    intro updates hvalid k hk
    exact updateCalls_getD config updates _ k hsub
      (fun i hi => by rw [hlen]; exact hvalid i hi) hk
  refine ⟨hlen, hsub, key, ?_⟩
  intro updates hvalid k hk _
  rw [key updates hvalid k hk]
  rw [List.indexOf_cons_self, List.indexOf_cons_ne _ (by simp)]
  exact Nat.succ_pos _

/-- The sample oneshot run: the second update prints and then requests `stop()`. -/
theorem subscribers_print_then_oneshot_witness :
    (updateCalls oneshotConfig (startUsingCommandline sampleEnv oneshotConfig).meters
        [0, 1]).getD 1 []
      = [Event.print 1,
         Event.verbose "(main) all meters have received at least one update, stopping.\n",
         Event.stop] :=
  (subscribers_print_then_oneshot sampleEnv oneshotConfig (by decide)).2.2.1 [0, 1]
    (by decide) 1 (by decide)

/-! ## The catalog and the factories -/

theorem catalog_has_no_unknown : ∀ row ∈ LIST_OF_METERS, row.type ≠ MeterType.UNKNOWN := by
  decide

/-- A type with a tag of the catalog has a catalog row. -/
theorem meterRow_of_known (m : MeterInfo) (h : toMeterType m.type ≠ MeterType.UNKNOWN) :
    ∃ row, meterRow m = some row := by
  unfold meterRow
  generalize toMeterType m.type = t at h
  cases t
  case UNKNOWN => exact absurd rfl h
  all_goals exact ⟨_, rfl⟩

theorem meterRow_of_unknown (m : MeterInfo) (h : toMeterType m.type = MeterType.UNKNOWN) :
    meterRow m = none := by
  unfold meterRow
  rw [h]
  rfl

/-- The strings that `toMeterType` knows are the wire names of the catalog. -/
theorem toMeterType_known_iff (type : String) :
    toMeterType type ≠ MeterType.UNKNOWN ↔ ∃ row ∈ LIST_OF_METERS, row.mname = type := by
  unfold toMeterType
  cases hf : LIST_OF_METERS.find? (fun row => row.mname == type) with
  | none =>
    simp only [ne_eq, not_true_eq_false, false_iff, not_exists, not_and]
    intro row hrow hname
    have := List.find?_eq_none.1 hf row hrow
    simp [hname] at this
  | some row =>
    have h1 := List.find?_some hf
    have h2 := List.mem_of_find?_eq_some hf
    simp only [ne_eq]
    constructor
    · intro _
      exact ⟨row, h2, by simpa using h1⟩
    · intro _
      exact catalog_has_no_unknown row h2

/-- Every factory call of the meter loop is the one the catalog row of the
type names. -/
theorem configureMeters_createMeter (env : Env) (config : Configuration)
    (ms : List MeterInfo) :
    ∀ (meters : List Meter), ∀ e ∈ (configureMeters env config ms meters).trace,
      ∀ cname m, e = Event.createMeter cname m →
        ∃ row, meterRow m = some row ∧ row.cname = cname := by
  induction ms with
  | nil => intro meters; simp [configureMeters, calls]
  | cons m0 rest ih =>
    intro meters
    unfold configureMeters
    cases hrow : meterRow m0 with
    | none => simp [error]
    | some row =>
      simp only []
      apply forall_trace_andThen
      · intro e he cname m heq
        subst heq
        simp only [calls, List.mem_cons, List.mem_singleton, Event.createMeter.injEq,
          reduceCtorEq, List.not_mem_nil, or_false] at he
        obtain ⟨hc, hm⟩ := he
        subst hc hm
        exact ⟨row, hrow, rfl⟩
      · intro ms2
        split_ifs
        · apply forall_trace_andThen
          · intro e he cname m heq
            subst heq
            simp [calls] at he
          · intro _; simp [exit]
        · apply forall_trace_andThen
          · intro e he cname m heq
            subst heq
            simp [calls] at he
          · intro ms3; exact ih ms3

/-- With catalog types only, and without `list_shell_envs`, the meter loop
runs to its end. -/
theorem configureMeters_known_returns (env : Env) (config : Configuration)
    (hlist : config.list_shell_envs = false) (ms : List MeterInfo) :
    ∀ (meters : List Meter), (∀ m ∈ ms, toMeterType m.type ≠ MeterType.UNKNOWN) →
      (configureMeters env config ms meters).outcome = Outcome.returned := by
  induction ms with
  | nil => intro meters _; rfl
  | cons m rest ih =>
    intro meters hknown
    obtain ⟨row, hrow⟩ := meterRow_of_known m (hknown m (by simp))
    unfold configureMeters
    simp only [hrow, calls, andThen_returned, hlist, Bool.false_eq_true, if_false]
    exact ih _ (fun x hx => hknown x (by simp [hx]))

theorem getLast?_append_of_some {α : Type} (l l2 : List α) (x : α)
    (h : l2.getLast? = some x) : (l ++ l2).getLast? = some x := by
  simp [List.getLast?_append, h]

/-- The meter loop at the first entry whose type is outside the catalog. -/
theorem configureMeters_unknown (env : Env) (config : Configuration)
    (m : MeterInfo) (rest : List MeterInfo)
    (hm : toMeterType m.type = MeterType.UNKNOWN) (pre : List MeterInfo) :
    ∀ (meters : List Meter), (∀ x ∈ pre, toMeterType x.type ≠ MeterType.UNKNOWN) →
      (config.list_shell_envs = true → pre = []) →
      (configureMeters env config (pre ++ m :: rest) meters).outcome = Outcome.exited 1 ∧
      (configureMeters env config (pre ++ m :: rest) meters).trace.getLast?
        = some (Event.error ("No such meter type \"" ++ m.type ++ "\"\n")) ∧
      ∃ built : List Meter,
        (configureMeters env config (pre ++ m :: rest) meters).meters = meters ++ built ∧
        built.map some = pre.map (configuredMeter config) := by
  induction pre with
  | nil =>
    intro meters _ _
    simp only [List.nil_append]
    have hrun : configureMeters env config (m :: rest) meters
        = error ("No such meter type \"" ++ m.type ++ "\"\n") meters := by
      unfold configureMeters
      simp only [meterRow_of_unknown m hm]
    rw [hrun]
    exact ⟨rfl, rfl, [], by simp [error], rfl⟩
  | cons p pre ih =>
    intro meters hknown hlist
    have hl : config.list_shell_envs = false := by
      cases h : config.list_shell_envs with
      | false => rfl
      | true => exact absurd (hlist h) (by simp)
    obtain ⟨row, hrow⟩ := meterRow_of_known p (hknown p (by simp))
    simp only [List.cons_append]
    unfold configureMeters
    simp only [hrow, calls, andThen_returned, hl, Bool.false_eq_true, if_false,
      List.modifyLast_append_one]
    obtain ⟨h1, h2, built, h3, h4⟩ := ih
      (meters ++ [(((newMeter row p).addConversions config.conversions).onUpdate
        Subscriber.print).onUpdate Subscriber.oneshot])
      (fun x hx => hknown x (by simp [hx])) (fun h => by rw [hl] at h; cases h)
    refine ⟨h1, ?_, (((newMeter row p).addConversions config.conversions).onUpdate
        Subscriber.print).onUpdate Subscriber.oneshot :: built, ?_, ?_⟩
    · simp only [List.cons_append, List.nil_append]
      rw [show ∀ (a b c d e : Event) (l : List Event),
          a :: b :: c :: d :: e :: l = [a, b, c, d, e] ++ l from fun _ _ _ _ _ _ => rfl]
      exact getLast?_append_of_some _ _ _ h2
    · rw [h3]; simp
    · simp [h4, configuredMeter, hrow]


/-- The row and the factory of a meter that the loop built. -/
theorem configuredMeter_row {config : Configuration} {m : MeterInfo} {b : Meter}
    (h : configuredMeter config m = some b) :
    ∃ row ∈ LIST_OF_METERS,
      row.type = toMeterType m.type ∧ b.type = row.type ∧ b.cname = row.cname := by
  unfold configuredMeter at h
  cases hrow : meterRow m with
  | none => simp [hrow] at h
  | some row =>
    simp only [hrow, Option.some.injEq] at h
    subst h
    exact ⟨row, List.mem_of_find?_eq_some hrow, meterRow_type hrow, rfl, rfl⟩

theorem setupMeters_createMeter (env : Env) (config : Configuration) :
    ∀ e ∈ (setupMeters env config).trace, ∀ cname m, e = Event.createMeter cname m →
      ∃ row, meterRow m = some row ∧ row.cname = cname := by
  unfold setupMeters
  split_ifs
  · exact configureMeters_createMeter env config _ _
  · intro e he cname m heq
    subst heq
    simp [calls] at he

/-- Every factory call of a run is the one the catalog row of the type names. -/
theorem startUsingCommandline_createMeter (env : Env) (config : Configuration)
    (cname : MeterConstructor) (m : MeterInfo)
    (hmem : Event.createMeter cname m ∈ (startUsingCommandline env config).trace) :
    ∃ row, meterRow m = some row ∧ row.cname = cname := by
  obtain ⟨pre, hpre, -, hsplit⟩ := startUsingCommandline_split env config
  have hnot : Event.createMeter cname m ∉ pre := by
    intro h
    have := (hpre _ h).2.2.1
    simp [Event.createsMeter] at this
  rcases hsplit with ⟨heq, -⟩ | ⟨wmbus, -, -, -, heq⟩
  · rw [heq] at hmem
    exact absurd hmem hnot
  · rw [heq] at hmem
    simp only [List.mem_append] at hmem
    rcases hmem with hmem | hmem
    · exact absurd hmem hnot
    · by_cases hs : (env.calculateLinkModes config wmbus).type
          = LinkModeCalculationResultType.Success
      · rw [startWithDevice_success env config wmbus hs] at hmem
        simp only [List.mem_append, List.mem_cons, List.mem_singleton, List.not_mem_nil,
          reduceCtorEq, or_false, false_or] at hmem
        have hall : ∀ e ∈ ((setupMeters env config).andThen
            fun meters => runLoop config wmbus meters).trace,
            ∀ cname m, e = Event.createMeter cname m →
              ∃ row, meterRow m = some row ∧ row.cname = cname := by
          apply forall_trace_andThen
          · exact setupMeters_createMeter env config
          · intro ms e he cname m heq
            subst heq
            have := (runLoop_quiet config wmbus ms _ he).2.2.2.1
            simp [Event.createsMeter] at this
        exact hall _ hmem cname m rfl
      · rw [startWithDevice_failure env config wmbus hs] at hmem
        simp at hmem

/-- The shape of a run whose dongle is open and whose link modes fit: what
comes before the meters makes none, and the rest is the meter set-up followed
by the loop. -/
theorem startUsingCommandline_loop (env : Env) (config : Configuration) (wmbus : WMBus)
    (hlog : (setupLogfile env config).outcome = Outcome.returned)
    (hdev : (openDevice env config).2 = some wmbus)
    (hcalc : (env.calculateLinkModes config wmbus).type
      = LinkModeCalculationResultType.Success) :
    ∃ before : List Event,
      startUsingCommandline env config
        = ⟨before ++ ((setupMeters env config).andThen
              fun meters => runLoop config wmbus meters).trace,
           ((setupMeters env config).andThen fun meters => runLoop config wmbus meters).meters,
           ((setupMeters env config).andThen
              fun meters => runLoop config wmbus meters).outcome⟩ := by
  obtain ⟨pre, -, -, hsplit⟩ := startUsingCommandline_split env config
  rcases hsplit with ⟨-, hbad | hbad⟩ | ⟨w, hw, -, -, heq⟩
  · rw [hlog] at hbad; cases hbad
  · rw [hdev] at hbad; cases hbad
  · rw [hdev] at hw
    cases hw
    rw [heq, startWithDevice_success env config wmbus hcalc]
    exact ⟨pre ++ [Event.calculateLinkModes wmbus,
      Event.setLinkModes config.listen_to_link_modes,
      Event.getLinkModes,
      Event.verbose ("(config) listen to link modes: "
        ++ env.getLinkModesHr wmbus config.listen_to_link_modes ++ "\n"),
      Event.newPrinter], by simp⟩

/-- C11, the code at two concrete inputs whose second meter has a type outside
the catalog.  With `list_shell_envs` set and a first meter of the catalog the
process exits with code 0 at the first meter and no fatal error is raised;
without a wM-Bus device the process exits with code 1 before the meter loop,
again without the fatal error. -/
theorem unknown_type_without_fatal_error :
    (shellenvsUnknownConfig.meters = [kitchen, attic] ∧
      toMeterType attic.type = MeterType.UNKNOWN ∧
      (startUsingCommandline sampleEnv shellenvsUnknownConfig).outcome = Outcome.exited 0 ∧
      (startUsingCommandline sampleEnv shellenvsUnknownConfig).trace.filter
        Event.isFatalError = []) ∧
    (unknownTypeConfig.meters = [kitchen, attic, cellar] ∧
      (startUsingCommandline noDeviceEnv unknownTypeConfig).outcome = Outcome.exited 1 ∧
      (startUsingCommandline noDeviceEnv unknownTypeConfig).trace.filter
        Event.isFatalError = []) := by
  decide

/-- C11 as amended: the catalog has 12 rows.  Every factory call of a run is
the one that the catalog row of the meter type names, so flowiq3100 and
multical21 are both built by the Multical21 factory, and no run creates a
meter for an entry whose type is outside the catalog.  Once the log file
set-up has not failed, the dongle is open and the link modes fit: when all
configured types are in the catalog and `list_shell_envs` is not set, the
set-up completes and the runtime meters are built from the configured entries
one for one and in order, each by the factory of its row and with the
configured conversions; when some type is outside the catalog, and
`list_shell_envs` is not set or the first such entry is the first entry, the
loop ends at the first such entry in the fatal error `No such meter type`,
with runtime meters for the entries before it only. -/
theorem meters_built_by_catalog_constructor (env : Env) (config : Configuration) :
    LIST_OF_METERS.length = 12 ∧
    (∀ type : String,
      toMeterType type ≠ MeterType.UNKNOWN ↔ ∃ row ∈ LIST_OF_METERS, row.mname = type) ∧
    (∀ m : MeterInfo, m.type = "flowiq3100" ∨ m.type = "multical21" →
      (meterRow m).map MeterRow.cname = some MeterConstructor.Multical21) ∧
    (∀ cname m, Event.createMeter cname m ∈ (startUsingCommandline env config).trace →
      ∃ row ∈ LIST_OF_METERS, row.type = toMeterType m.type ∧ row.cname = cname) ∧
    (∀ m, toMeterType m.type = MeterType.UNKNOWN →
      ∀ cname, Event.createMeter cname m ∉ (startUsingCommandline env config).trace) ∧
    ∀ wmbus : WMBus,
    (setupLogfile env config).outcome = Outcome.returned →
    (openDevice env config).2 = some wmbus →
    (env.calculateLinkModes config wmbus).type = LinkModeCalculationResultType.Success →
    (config.list_shell_envs = false →
      (∀ m ∈ config.meters, toMeterType m.type ≠ MeterType.UNKNOWN) →
      (startUsingCommandline env config).outcome = Outcome.returned ∧
      (startUsingCommandline env config).meters.map Meter.info = config.meters ∧
      ∀ b ∈ (startUsingCommandline env config).meters,
        b.conversions = config.conversions ∧
        ∃ row ∈ LIST_OF_METERS,
          row.type = toMeterType b.info.type ∧ b.type = row.type ∧ b.cname = row.cname) ∧
    (∀ (pre : List MeterInfo) (m : MeterInfo) (rest : List MeterInfo),
      config.meters = pre ++ m :: rest →
      (∀ x ∈ pre, toMeterType x.type ≠ MeterType.UNKNOWN) →
      toMeterType m.type = MeterType.UNKNOWN →
      (config.list_shell_envs = true → pre = []) →
      (startUsingCommandline env config).outcome = Outcome.exited 1 ∧
      (startUsingCommandline env config).trace.getLast?
        = some (Event.error ("No such meter type \"" ++ m.type ++ "\"\n")) ∧
      (startUsingCommandline env config).meters.map Meter.info = pre ∧
      ∀ cname, Event.createMeter cname m ∉ (startUsingCommandline env config).trace) := by
  have hcreate : ∀ cname m,
      Event.createMeter cname m ∈ (startUsingCommandline env config).trace →
      ∃ row, meterRow m = some row ∧ row.cname = cname :=
    fun cname m h => startUsingCommandline_createMeter env config cname m h
  refine ⟨rfl, toMeterType_known_iff, ?_, ?_, ?_, ?_⟩
  · intro m hm
    unfold meterRow
    rcases hm with hm | hm <;> rw [hm] <;> rfl
  · intro cname m hmem
    obtain ⟨row, hrow, hc⟩ := hcreate cname m hmem
    exact ⟨row, List.mem_of_find?_eq_some hrow, meterRow_type hrow, hc⟩
  · intro m hm cname hmem
    obtain ⟨row, hrow, -⟩ := hcreate cname m hmem
    rw [meterRow_of_unknown m hm] at hrow
    cases hrow
  intro wmbus hlog hdev hcalc
  obtain ⟨before, heq⟩ := startUsingCommandline_loop env config wmbus hlog hdev hcalc
  constructor
  · intro hlist hknown
    have hsetup : (setupMeters env config).outcome = Outcome.returned := by
      unfold setupMeters
      split_ifs
      · exact configureMeters_known_returns env config hlist _ _ hknown
      · rfl
    have hrun : (startUsingCommandline env config).outcome = Outcome.returned := by
      rw [heq, andThen_of_returned _ hsetup]
      rfl
    have hmap := startUsingCommandline_returned env config hrun
    refine ⟨hrun, ?_, ?_⟩
    · have := map_of_map_some (configuredMeter config) Meter.info id
        (fun a b hb => (configuredMeter_some hb).1) _ _ hmap
      simpa using this
    · intro b hb
      obtain ⟨-, hall⟩ := map_some_eq_map_iff (configuredMeter config) _ _ hmap
      obtain ⟨m, -, hm⟩ := hall b hb
      obtain ⟨hi, -, hc, -⟩ := configuredMeter_some hm
      obtain ⟨row, hr1, hr2, hr3, hr4⟩ := configuredMeter_row hm
      exact ⟨hc, row, hr1, by rw [hi]; exact hr2, hr3, hr4⟩
  · intro pre m rest hmeters hknown hm hlist
    have hsetup : setupMeters env config
        = configureMeters env config (pre ++ m :: rest) [] := by
      unfold setupMeters
      rw [hmeters]
      simp
    obtain ⟨h1, h2, built, h3, h4⟩ :=
      configureMeters_unknown env config m rest hm pre [] hknown hlist
    have hrun : (startUsingCommandline env config)
        = ⟨before ++ (configureMeters env config (pre ++ m :: rest) []).trace,
           (configureMeters env config (pre ++ m :: rest) []).meters,
           (configureMeters env config (pre ++ m :: rest) []).outcome⟩ := by
      rw [heq, hsetup, andThen_of_exited _ h1]
    refine ⟨by rw [hrun]; exact h1, ?_, ?_, ?_⟩
    · rw [hrun]
      exact getLast?_append_of_some _ _ _ h2
    · rw [hrun]
      simp only [h3, List.nil_append]
      have := map_of_map_some (configuredMeter config) Meter.info id
        (fun a b hb => (configuredMeter_some hb).1) _ _ h4
      simpa using this
    · intro cname hmem
      obtain ⟨row, hrow, -⟩ := hcreate cname m hmem
      rw [meterRow_of_unknown m hm] at hrow
      cases hrow

/-- The sample run with a flowiq3100, a multical21 and a vario451. -/
theorem meters_built_by_catalog_constructor_witness :
    (startUsingCommandline sampleEnv catalogConfig).outcome = Outcome.returned ∧
    (startUsingCommandline sampleEnv catalogConfig).meters.map Meter.info
      = [bathroom, kitchen, cellar] ∧
    (startUsingCommandline sampleEnv unknownTypeConfig).outcome = Outcome.exited 1 :=
  ⟨(((meters_built_by_catalog_constructor sampleEnv catalogConfig).2.2.2.2.2
      ⟨MBusDeviceType.DEVICE_SIMULATOR, "simulation_t1.txt"⟩
      (by decide) (by decide) (by decide)).1 rfl (by decide)).1,
   (((meters_built_by_catalog_constructor sampleEnv catalogConfig).2.2.2.2.2
      ⟨MBusDeviceType.DEVICE_SIMULATOR, "simulation_t1.txt"⟩
      (by decide) (by decide) (by decide)).1 rfl (by decide)).2.1,
   (((meters_built_by_catalog_constructor sampleEnv unknownTypeConfig).2.2.2.2.2
      ⟨MBusDeviceType.DEVICE_SIMULATOR, "simulation_t1.txt"⟩
      (by decide) (by decide) (by decide)).2 [kitchen] attic [cellar] rfl
      (by decide) (by decide) (by decide)).1⟩

end Wmbusmeters
